import Mathlib

/-!
# A verification development of the OpenWarIO simulation core

This file gives a shallow embedding, in Lean 4, of the tick-driven
execution engine of the OpenWarIO territory-conquest game, and proves
properties of its executions (transport plane / airdrop, research,
airport, admin) and of the research bonus calculator.

Conventions of the embedding:
* TypeScript numbers used as troop counts, gold, and tick counters are
  modelled as `Int` / `Nat`; research bonus multipliers are modelled as
  `ℚ` (exact rational arithmetic standing for JS floating point — none
  of the proved properties depends on rounding).
* Mutable class fields become fields of explicit state records; each
  `init` / `tick` method becomes a function from (execution state,
  game state) to (execution state, game state).
* `TerraNullius` (the unclaimed-territory owner sentinel) is the `none`
  case of `Option PlayerId`.
* The repository contains two divergent copies of the `Research` module
  (a two-entry tree used by the execution layer, and an eight-entry
  infantry tree with additive damage reduction).  Both are embedded, in
  namespaces `Research2` and `Research8` respectively.
* Fallible lookups return `Option`; JS truthiness tests on optional
  numeric fields are modelled by `jsTruthy`.
-/

/-- Player identifiers. -/
abbrev PlayerId := Nat

/-- An opaque tile reference: `ref = y * width + x`. -/
abbrev TileRef := Nat

/-- JS truthiness of an optional numeric field (`if (x)` on a field of
type `number | undefined`): `undefined` and `0` are falsy, every other
number is truthy. -/
def jsTruthy (o : Option ℚ) : Bool :=
  match o with
  | some v => v != 0
  | none => false

namespace Research2

/-- `ResearchType` of `src/core/game/Research.ts` (the two-entry tree used
by `ResearchExecution` and `AdminExecution`).  In the source this is a
string-valued TS enum. -/
inductive ResearchType where
  | InfantryImprovements
  | BetterTech
deriving DecidableEq, Repr

/-- The runtime value of a TS enum member: a number or a string. -/
inductive EnumValue where
  | num (n : Int)
  | str (s : String)
deriving DecidableEq, Repr

/-- `typeof v === "number"` on an enum member's runtime value. -/
def EnumValue.typeofIsNumber : EnumValue → Bool
  | .num _ => true
  | .str _ => false

/-- `Object.values(ResearchType)` enumerates the members in declaration
order. -/
def ResearchType.values : List ResearchType := [.InfantryImprovements, .BetterTech]

/-- The runtime value of each `ResearchType` member.  Both initializers in
the source are string literals, so every member is string-valued. -/
def ResearchType.enumValue : ResearchType → EnumValue
  | .InfantryImprovements => .str "InfantryImprovements"
  | .BetterTech => .str "BetterTech"

/-- `ResearchBonuses`: optional multiplicative bonuses. -/
structure ResearchBonuses where
  attackBonus : Option ℚ := none
  defenseBonus : Option ℚ := none
  troopProductionBonus : Option ℚ := none
  goldProductionBonus : Option ℚ := none
  buildSpeedBonus : Option ℚ := none
deriving DecidableEq, Repr

/-- `ResearchDefinition`: cost, duration, prerequisites and bonuses of one
research item. -/
structure ResearchDefinition where
  type : ResearchType
  name : String
  description : String
  cost : Int
  durationTicks : Nat
  prerequisites : List ResearchType
  bonuses : ResearchBonuses
deriving DecidableEq, Repr

/-- `RESEARCH_DEFINITIONS` of `src/core/game/Research.ts`. -/
def RESEARCH_DEFINITIONS : ResearchType → ResearchDefinition
  | .InfantryImprovements =>
    { type := .InfantryImprovements
      name := "Infantry Improvements"
      description := "Basic military training improvements. No immediate bonus."
      cost := 500000
      durationTicks := 30 * 10
      prerequisites := []
      bonuses := {} }
  | .BetterTech =>
    { type := .BetterTech
      name := "Better Tech"
      description := "Advanced military technology. +20% attack bonus."
      cost := 1000000
      durationTicks := 60 * 10
      prerequisites := [.InfantryImprovements]
      bonuses := { attackBonus := some (6/5) } }

/-- `getResearchDefinition`. -/
def getResearchDefinition (type : ResearchType) : ResearchDefinition :=
  RESEARCH_DEFINITIONS type

/-- One pass of the loop body of `calculateCombinedBonuses`: multiply in
every bonus field the research defines (JS truthiness guards each field). -/
def applyResearchBonuses (c : ResearchBonuses) (researchType : ResearchType) :
    ResearchBonuses :=
  let d := RESEARCH_DEFINITIONS researchType
  let c := if jsTruthy d.bonuses.attackBonus then
      { c with attackBonus := some (c.attackBonus.getD 1 * d.bonuses.attackBonus.getD 1) }
    else c
  let c := if jsTruthy d.bonuses.defenseBonus then
      { c with defenseBonus := some (c.defenseBonus.getD 1 * d.bonuses.defenseBonus.getD 1) }
    else c
  let c := if jsTruthy d.bonuses.troopProductionBonus then
      { c with troopProductionBonus := some (c.troopProductionBonus.getD 1 * d.bonuses.troopProductionBonus.getD 1) }
    else c
  let c := if jsTruthy d.bonuses.goldProductionBonus then
      { c with goldProductionBonus := some (c.goldProductionBonus.getD 1 * d.bonuses.goldProductionBonus.getD 1) }
    else c
  let c := if jsTruthy d.bonuses.buildSpeedBonus then
      { c with buildSpeedBonus := some (c.buildSpeedBonus.getD 1 * d.bonuses.buildSpeedBonus.getD 1) }
    else c
  c

/-- `calculateCombinedBonuses` of `src/core/game/Research.ts`: all
multiplier fields start at the neutral 1.0 and the completed researches'
bonuses are multiplied in, one research at a time. -/
def calculateCombinedBonuses (completedResearches : List ResearchType) :
    ResearchBonuses :=
  completedResearches.foldl applyResearchBonuses
    { attackBonus := some 1
      defenseBonus := some 1
      troopProductionBonus := some 1
      goldProductionBonus := some 1
      buildSpeedBonus := some 1 }

end Research2

namespace Research8

/-- `ResearchType` of the eight-entry infantry tree variant of
`Research.ts` (the copy with additive damage reduction). -/
inductive ResearchType where
  | BasicTrainingDoctrine
  | AdvancedFirearms
  | BodyArmorMk1
  | TacticalAssaultTraining
  | HeavyBodyArmor
  | CombatMedicIntegration
  | EliteInfantryDoctrine
  | SpecialForcesProgram
deriving DecidableEq, Repr

/-- All eight members in declaration order. -/
def ResearchType.values : List ResearchType :=
  [.BasicTrainingDoctrine, .AdvancedFirearms, .BodyArmorMk1, .TacticalAssaultTraining,
   .HeavyBodyArmor, .CombatMedicIntegration, .EliteInfantryDoctrine, .SpecialForcesProgram]

/-- `ResearchBonuses` of the eight-entry tree: multiplicative bonuses plus
a flat (additive) `damageReduction`. -/
structure ResearchBonuses where
  attackBonus : Option ℚ := none
  damageReduction : Option ℚ := none
  healthBonus : Option ℚ := none
  defenseBonus : Option ℚ := none
  troopProductionBonus : Option ℚ := none
  goldProductionBonus : Option ℚ := none
  buildSpeedBonus : Option ℚ := none
deriving DecidableEq, Repr

/-- `ResearchDefinition` of the eight-entry tree. -/
structure ResearchDefinition where
  type : ResearchType
  name : String
  description : String
  cost : Int
  durationTicks : Nat
  prerequisites : List ResearchType
  bonuses : ResearchBonuses
  order : Nat
deriving DecidableEq, Repr

/-- `RESEARCH_DEFINITIONS` of the eight-entry tree. -/
def RESEARCH_DEFINITIONS : ResearchType → ResearchDefinition
  | .BasicTrainingDoctrine =>
    { type := .BasicTrainingDoctrine
      name := "Basic Training Doctrine"
      description := "+5% Infantry Attack"
      cost := 150000
      durationTicks := 150 * 10
      prerequisites := []
      bonuses := { attackBonus := some (21/20) }
      order := 1 }
  | .AdvancedFirearms =>
    { type := .AdvancedFirearms
      name := "Advanced Firearms"
      description := "+10% Infantry Attack"
      cost := 200000
      durationTicks := 180 * 10
      prerequisites := [.BasicTrainingDoctrine]
      bonuses := { attackBonus := some (11/10) }
      order := 2 }
  | .BodyArmorMk1 =>
    { type := .BodyArmorMk1
      name := "Body Armor Mk I"
      description := "-5% Damage Taken"
      cost := 225000
      durationTicks := 180 * 10
      prerequisites := [.AdvancedFirearms]
      bonuses := { damageReduction := some 5 }
      order := 3 }
  | .TacticalAssaultTraining =>
    { type := .TacticalAssaultTraining
      name := "Tactical Assault Training"
      description := "+15% Infantry Attack"
      cost := 325000
      durationTicks := 270 * 10
      prerequisites := [.BodyArmorMk1]
      bonuses := { attackBonus := some (23/20) }
      order := 4 }
  | .HeavyBodyArmor =>
    { type := .HeavyBodyArmor
      name := "Heavy Body Armor"
      description := "-10% Damage Taken"
      cost := 385000
      durationTicks := 270 * 10
      prerequisites := [.TacticalAssaultTraining]
      bonuses := { damageReduction := some 10 }
      order := 5 }
  | .CombatMedicIntegration =>
    { type := .CombatMedicIntegration
      name := "Combat Medic Integration"
      description := "+20% Infantry Health"
      cost := 452000
      durationTicks := 270 * 10
      prerequisites := [.HeavyBodyArmor]
      bonuses := { healthBonus := some (6/5) }
      order := 6 }
  | .EliteInfantryDoctrine =>
    { type := .EliteInfantryDoctrine
      name := "Elite Infantry Doctrine"
      description := "+20% Infantry Attack, -5% Damage Taken"
      cost := 950000
      durationTicks := 300 * 10
      prerequisites := [.CombatMedicIntegration]
      bonuses := { attackBonus := some (6/5), damageReduction := some 5 }
      order := 7 }
  | .SpecialForcesProgram =>
    { type := .SpecialForcesProgram
      name := "Special Forces Program"
      description := "+25% Infantry Attack, +30% Infantry Health, -15% Damage Taken"
      cost := 3500000
      durationTicks := 390 * 10
      prerequisites := [.EliteInfantryDoctrine]
      bonuses := { attackBonus := some (5/4), healthBonus := some (13/10),
                   damageReduction := some 15 }
      order := 8 }

/-- `getResearchDefinition` of the eight-entry tree. -/
def getResearchDefinition (type : ResearchType) : ResearchDefinition :=
  RESEARCH_DEFINITIONS type

/-- One pass of the loop body of `calculateCombinedBonuses`: multiply in
every multiplicative bonus the research defines, and add in the flat
damage reduction (JS truthiness guards each field; fields are visited in
source order). -/
def applyResearchBonuses (c : ResearchBonuses) (researchType : ResearchType) :
    ResearchBonuses :=
  let d := RESEARCH_DEFINITIONS researchType
  let c := if jsTruthy d.bonuses.attackBonus then
      { c with attackBonus := some (c.attackBonus.getD 1 * d.bonuses.attackBonus.getD 1) }
    else c
  let c := if jsTruthy d.bonuses.defenseBonus then
      { c with defenseBonus := some (c.defenseBonus.getD 1 * d.bonuses.defenseBonus.getD 1) }
    else c
  let c := if jsTruthy d.bonuses.healthBonus then
      { c with healthBonus := some (c.healthBonus.getD 1 * d.bonuses.healthBonus.getD 1) }
    else c
  let c := if jsTruthy d.bonuses.damageReduction then
      { c with damageReduction := some (c.damageReduction.getD 0 + d.bonuses.damageReduction.getD 0) }
    else c
  let c := if jsTruthy d.bonuses.troopProductionBonus then
      { c with troopProductionBonus := some (c.troopProductionBonus.getD 1 * d.bonuses.troopProductionBonus.getD 1) }
    else c
  let c := if jsTruthy d.bonuses.goldProductionBonus then
      { c with goldProductionBonus := some (c.goldProductionBonus.getD 1 * d.bonuses.goldProductionBonus.getD 1) }
    else c
  let c := if jsTruthy d.bonuses.buildSpeedBonus then
      { c with buildSpeedBonus := some (c.buildSpeedBonus.getD 1 * d.bonuses.buildSpeedBonus.getD 1) }
    else c
  c

/-- `calculateCombinedBonuses` of the eight-entry tree: multiplier fields
start at the neutral 1.0, damage reduction starts at 0; completed
researches' bonuses are folded in one research at a time. -/
def calculateCombinedBonuses (completedResearches : List ResearchType) :
    ResearchBonuses :=
  completedResearches.foldl applyResearchBonuses
    { attackBonus := some 1
      defenseBonus := some 1
      healthBonus := some 1
      damageReduction := some 0
      troopProductionBonus := some 1
      goldProductionBonus := some 1
      buildSpeedBonus := some 1 }

end Research8

namespace Research8

/-- Spec-side definition (the claim's words): the product of the attack
bonus over all researches in the list that define it, defaulting to 1. -/
def specAttackBonusProduct (l : List ResearchType) : ℚ :=
  (l.filterMap fun t => (RESEARCH_DEFINITIONS t).bonuses.attackBonus).prod

/-- Spec-side definition: the product of the defense bonus over all
researches in the list that define it, defaulting to 1. -/
def specDefenseBonusProduct (l : List ResearchType) : ℚ :=
  (l.filterMap fun t => (RESEARCH_DEFINITIONS t).bonuses.defenseBonus).prod

/-- Spec-side definition: the product of the troop production bonus over
all researches in the list that define it, defaulting to 1. -/
def specTroopProductionBonusProduct (l : List ResearchType) : ℚ :=
  (l.filterMap fun t => (RESEARCH_DEFINITIONS t).bonuses.troopProductionBonus).prod

/-- Spec-side definition: the product of the gold production bonus over
all researches in the list that define it, defaulting to 1. -/
def specGoldProductionBonusProduct (l : List ResearchType) : ℚ :=
  (l.filterMap fun t => (RESEARCH_DEFINITIONS t).bonuses.goldProductionBonus).prod

/-- Spec-side definition: the product of the build speed bonus over all
researches in the list that define it, defaulting to 1. -/
def specBuildSpeedBonusProduct (l : List ResearchType) : ℚ :=
  (l.filterMap fun t => (RESEARCH_DEFINITIONS t).bonuses.buildSpeedBonus).prod

/-- Spec-side definition: the sum of the flat damage-reduction values over
all researches in the list that define it, defaulting to 0. -/
def specDamageReductionSum (l : List ResearchType) : ℚ :=
  (l.filterMap fun t => (RESEARCH_DEFINITIONS t).bonuses.damageReduction).sum

lemma applyResearchBonuses_attackBonus (c : ResearchBonuses) (t : ResearchType) :
    (applyResearchBonuses c t).attackBonus =
      match (RESEARCH_DEFINITIONS t).bonuses.attackBonus with
      | some v => some (c.attackBonus.getD 1 * v)
      | none => c.attackBonus := by
  cases t <;> simp [applyResearchBonuses, RESEARCH_DEFINITIONS, jsTruthy]

lemma applyResearchBonuses_defenseBonus (c : ResearchBonuses) (t : ResearchType) :
    (applyResearchBonuses c t).defenseBonus =
      match (RESEARCH_DEFINITIONS t).bonuses.defenseBonus with
      | some v => some (c.defenseBonus.getD 1 * v)
      | none => c.defenseBonus := by
  cases t <;> simp [applyResearchBonuses, RESEARCH_DEFINITIONS, jsTruthy]

lemma applyResearchBonuses_troopProductionBonus (c : ResearchBonuses) (t : ResearchType) :
    (applyResearchBonuses c t).troopProductionBonus =
      match (RESEARCH_DEFINITIONS t).bonuses.troopProductionBonus with
      | some v => some (c.troopProductionBonus.getD 1 * v)
      | none => c.troopProductionBonus := by
  cases t <;> simp [applyResearchBonuses, RESEARCH_DEFINITIONS, jsTruthy]

lemma applyResearchBonuses_goldProductionBonus (c : ResearchBonuses) (t : ResearchType) :
    (applyResearchBonuses c t).goldProductionBonus =
      match (RESEARCH_DEFINITIONS t).bonuses.goldProductionBonus with
      | some v => some (c.goldProductionBonus.getD 1 * v)
      | none => c.goldProductionBonus := by
  cases t <;> simp [applyResearchBonuses, RESEARCH_DEFINITIONS, jsTruthy]

lemma applyResearchBonuses_buildSpeedBonus (c : ResearchBonuses) (t : ResearchType) :
    (applyResearchBonuses c t).buildSpeedBonus =
      match (RESEARCH_DEFINITIONS t).bonuses.buildSpeedBonus with
      | some v => some (c.buildSpeedBonus.getD 1 * v)
      | none => c.buildSpeedBonus := by
  cases t <;> simp [applyResearchBonuses, RESEARCH_DEFINITIONS, jsTruthy]

lemma applyResearchBonuses_damageReduction (c : ResearchBonuses) (t : ResearchType) :
    (applyResearchBonuses c t).damageReduction =
      match (RESEARCH_DEFINITIONS t).bonuses.damageReduction with
      | some v => some (c.damageReduction.getD 0 + v)
      | none => c.damageReduction := by
  cases t <;> simp [applyResearchBonuses, RESEARCH_DEFINITIONS, jsTruthy]

lemma foldl_applyResearchBonuses_attackBonus :
    ∀ (l : List ResearchType) (c : ResearchBonuses) (a : ℚ),
    c.attackBonus = some a →
    (l.foldl applyResearchBonuses c).attackBonus = some (a * specAttackBonusProduct l)
  | [], c, a, h => by simpa [specAttackBonusProduct] using h
  | t :: ts, c, a, h => by
    rw [List.foldl_cons]
    cases hv : (RESEARCH_DEFINITIONS t).bonuses.attackBonus with
    | none =>
      rw [foldl_applyResearchBonuses_attackBonus ts _ a
        (by rw [applyResearchBonuses_attackBonus, hv]; exact h)]
      simp [specAttackBonusProduct, List.filterMap_cons, hv]
    | some v =>
      rw [foldl_applyResearchBonuses_attackBonus ts _ (a * v)
        (by rw [applyResearchBonuses_attackBonus, hv, h]; rfl)]
      simp [specAttackBonusProduct, List.filterMap_cons, hv, mul_assoc, mul_comm v]

lemma foldl_applyResearchBonuses_defenseBonus :
    ∀ (l : List ResearchType) (c : ResearchBonuses) (a : ℚ),
    c.defenseBonus = some a →
    (l.foldl applyResearchBonuses c).defenseBonus = some (a * specDefenseBonusProduct l)
  | [], c, a, h => by simpa [specDefenseBonusProduct] using h
  | t :: ts, c, a, h => by
    rw [List.foldl_cons]
    cases hv : (RESEARCH_DEFINITIONS t).bonuses.defenseBonus with
    | none =>
      rw [foldl_applyResearchBonuses_defenseBonus ts _ a
        (by rw [applyResearchBonuses_defenseBonus, hv]; exact h)]
      simp [specDefenseBonusProduct, List.filterMap_cons, hv]
    | some v =>
      rw [foldl_applyResearchBonuses_defenseBonus ts _ (a * v)
        (by rw [applyResearchBonuses_defenseBonus, hv, h]; rfl)]
      simp [specDefenseBonusProduct, List.filterMap_cons, hv, mul_assoc, mul_comm v]

lemma foldl_applyResearchBonuses_troopProductionBonus :
    ∀ (l : List ResearchType) (c : ResearchBonuses) (a : ℚ),
    c.troopProductionBonus = some a →
    (l.foldl applyResearchBonuses c).troopProductionBonus =
      some (a * specTroopProductionBonusProduct l)
  | [], c, a, h => by simpa [specTroopProductionBonusProduct] using h
  | t :: ts, c, a, h => by
    rw [List.foldl_cons]
    cases hv : (RESEARCH_DEFINITIONS t).bonuses.troopProductionBonus with
    | none =>
      rw [foldl_applyResearchBonuses_troopProductionBonus ts _ a
        (by rw [applyResearchBonuses_troopProductionBonus, hv]; exact h)]
      simp [specTroopProductionBonusProduct, List.filterMap_cons, hv]
    | some v =>
      rw [foldl_applyResearchBonuses_troopProductionBonus ts _ (a * v)
        (by rw [applyResearchBonuses_troopProductionBonus, hv, h]; rfl)]
      simp [specTroopProductionBonusProduct, List.filterMap_cons, hv, mul_assoc, mul_comm v]

lemma foldl_applyResearchBonuses_goldProductionBonus :
    ∀ (l : List ResearchType) (c : ResearchBonuses) (a : ℚ),
    c.goldProductionBonus = some a →
    (l.foldl applyResearchBonuses c).goldProductionBonus =
      some (a * specGoldProductionBonusProduct l)
  | [], c, a, h => by simpa [specGoldProductionBonusProduct] using h
  | t :: ts, c, a, h => by
    rw [List.foldl_cons]
    cases hv : (RESEARCH_DEFINITIONS t).bonuses.goldProductionBonus with
    | none =>
      rw [foldl_applyResearchBonuses_goldProductionBonus ts _ a
        (by rw [applyResearchBonuses_goldProductionBonus, hv]; exact h)]
      simp [specGoldProductionBonusProduct, List.filterMap_cons, hv]
    | some v =>
      rw [foldl_applyResearchBonuses_goldProductionBonus ts _ (a * v)
        (by rw [applyResearchBonuses_goldProductionBonus, hv, h]; rfl)]
      simp [specGoldProductionBonusProduct, List.filterMap_cons, hv, mul_assoc, mul_comm v]

lemma foldl_applyResearchBonuses_buildSpeedBonus :
    ∀ (l : List ResearchType) (c : ResearchBonuses) (a : ℚ),
    c.buildSpeedBonus = some a →
    (l.foldl applyResearchBonuses c).buildSpeedBonus = some (a * specBuildSpeedBonusProduct l)
  | [], c, a, h => by simpa [specBuildSpeedBonusProduct] using h
  | t :: ts, c, a, h => by
    rw [List.foldl_cons]
    cases hv : (RESEARCH_DEFINITIONS t).bonuses.buildSpeedBonus with
    | none =>
      rw [foldl_applyResearchBonuses_buildSpeedBonus ts _ a
        (by rw [applyResearchBonuses_buildSpeedBonus, hv]; exact h)]
      simp [specBuildSpeedBonusProduct, List.filterMap_cons, hv]
    | some v =>
      rw [foldl_applyResearchBonuses_buildSpeedBonus ts _ (a * v)
        (by rw [applyResearchBonuses_buildSpeedBonus, hv, h]; rfl)]
      simp [specBuildSpeedBonusProduct, List.filterMap_cons, hv, mul_assoc, mul_comm v]

lemma foldl_applyResearchBonuses_damageReduction :
    ∀ (l : List ResearchType) (c : ResearchBonuses) (a : ℚ),
    c.damageReduction = some a →
    (l.foldl applyResearchBonuses c).damageReduction = some (a + specDamageReductionSum l)
  | [], c, a, h => by simpa [specDamageReductionSum] using h
  | t :: ts, c, a, h => by
    rw [List.foldl_cons]
    cases hv : (RESEARCH_DEFINITIONS t).bonuses.damageReduction with
    | none =>
      rw [foldl_applyResearchBonuses_damageReduction ts _ a
        (by rw [applyResearchBonuses_damageReduction, hv]; exact h)]
      simp [specDamageReductionSum, List.filterMap_cons, hv]
    | some v =>
      rw [foldl_applyResearchBonuses_damageReduction ts _ (a + v)
        (by rw [applyResearchBonuses_damageReduction, hv, h]; rfl)]
      simp [specDamageReductionSum, List.filterMap_cons, hv, add_assoc, add_comm v]

end Research8

/-- C3: for every list of completed research types, `calculateCombinedBonuses`
returns, for each multiplicative bonus kind (attack, defense, troop
production, gold production, build speed), the product of that bonus over
all completed researches that define it (defaulting to 1.0 when none
define it), and returns the sum of the flat damage-reduction values over
all completed researches (defaulting to 0); in particular for the empty
list every multiplier is 1.0 and the damage reduction is 0. -/
theorem calculateCombinedBonuses_products_and_sum (l : List Research8.ResearchType) :
    (Research8.calculateCombinedBonuses l).attackBonus =
      some (Research8.specAttackBonusProduct l) ∧
    (Research8.calculateCombinedBonuses l).defenseBonus =
      some (Research8.specDefenseBonusProduct l) ∧
    (Research8.calculateCombinedBonuses l).troopProductionBonus =
      some (Research8.specTroopProductionBonusProduct l) ∧
    (Research8.calculateCombinedBonuses l).goldProductionBonus =
      some (Research8.specGoldProductionBonusProduct l) ∧
    (Research8.calculateCombinedBonuses l).buildSpeedBonus =
      some (Research8.specBuildSpeedBonusProduct l) ∧
    (Research8.calculateCombinedBonuses l).damageReduction =
      some (Research8.specDamageReductionSum l) ∧
    (Research8.calculateCombinedBonuses ([] : List Research8.ResearchType)).attackBonus =
      some 1 ∧
    (Research8.calculateCombinedBonuses ([] : List Research8.ResearchType)).damageReduction =
      some 0 := by
  unfold Research8.calculateCombinedBonuses
  refine ⟨?_, ?_, ?_, ?_, ?_, ?_, by rfl, by rfl⟩
  · simpa using Research8.foldl_applyResearchBonuses_attackBonus l _ 1 rfl
  · simpa using Research8.foldl_applyResearchBonuses_defenseBonus l _ 1 rfl
  · simpa using Research8.foldl_applyResearchBonuses_troopProductionBonus l _ 1 rfl
  · simpa using Research8.foldl_applyResearchBonuses_goldProductionBonus l _ 1 rfl
  · simpa using Research8.foldl_applyResearchBonuses_buildSpeedBonus l _ 1 rfl
  · simpa using Research8.foldl_applyResearchBonuses_damageReduction l _ 0 rfl

namespace OpenWar

/-- The immutable terrain grid: width, height and a land/water flag per
tile reference (`genTerrainFromBin` loads exactly `width * height` tiles). -/
structure GameMap where
  width : Nat
  height : Nat
  isLandAt : TileRef → Bool

/-- A tile reference is valid when it addresses a tile of the grid. -/
def GameMap.isValidRef (m : GameMap) (r : TileRef) : Bool :=
  r < m.width * m.height

/-- The x coordinate encoded in a tile reference. -/
def GameMap.x (m : GameMap) (r : TileRef) : Nat := r % m.width

/-- The y coordinate encoded in a tile reference. -/
def GameMap.y (m : GameMap) (r : TileRef) : Nat := r / m.width

/-- The tile reference of in-bounds coordinates. -/
def GameMap.ref (m : GameMap) (x y : Nat) : TileRef := y * m.width + x

/-- Coordinate bounds check (coordinates may be negative after rounding). -/
def GameMap.isValidCoord (m : GameMap) (x y : Int) : Bool :=
  0 ≤ x && x < (m.width : Int) && 0 ≤ y && y < (m.height : Int)

/-- Whether a tile is land. -/
def GameMap.isLand (m : GameMap) (r : TileRef) : Bool := m.isLandAt r

/-- The unit types the embedded executions build or query. -/
inductive UnitType where
  | TransportPlane
  | Airport
deriving DecidableEq, Repr

/-- A game unit: type tag, owner, tile location, construction and active
flags, and the type-specific payload (carried troops, target/source tiles). -/
structure Unit where
  id : Nat
  unitType : UnitType
  owner : PlayerId
  tile : TileRef
  underConstruction : Bool
  troops : Int
  targetTile : Option TileRef
  sourceTile : Option TileRef
  active : Bool
deriving DecidableEq, Repr

/-- `ResearchState`: per-player, per-research progress record. -/
structure ResearchState where
  type : Research2.ResearchType
  completed : Bool
  startedAt : Option Nat
  completedAt : Option Nat
deriving DecidableEq, Repr

/-- Modelled from the spec: the mutable per-player record (`PlayerImpl` is
not among the provided sources).  Holds troop count, gold, team
affiliation, liveness, and the research state. -/
structure PlayerState where
  troops : Int
  gold : Int
  team : Option Nat
  alive : Bool
  researches : Research2.ResearchType → Option ResearchState
  currentResearch : Option Research2.ResearchType

/-- The message types the embedded executions emit. -/
inductive MessageType where
  | ATTACK_FAILED
  | ATTACK_REQUEST
  | ATTACK_STARTED
  | NAVAL_INVASION_INBOUND
deriving DecidableEq, Repr

/-- A structured display event handed to the external notification sink
(text parameters of the source calls are omitted — they never feed back
into simulation state). -/
inductive DisplayEvent where
  | message (key : String) (messageType : MessageType) (playerId : PlayerId)
  | incomingUnit (unitId : Nat) (messageType : MessageType) (playerId : PlayerId)
deriving DecidableEq, Repr

/-- An execution registered with `addExecution`, to be initialized on the
next tick.  Only the `AttackExecution` constructor call of
`TransportPlaneExecution.landTroops` is needed here; the constructor
arguments are recorded verbatim. -/
inductive PendingExec where
  | attack (troops : Int) (attacker : PlayerId) (targetId : PlayerId)
      (sourceTile : TileRef) (removeTroops : Bool)
deriving DecidableEq, Repr

/-- The shared game state the executions read and mutate: the map, tile
ownership (`none` is TerraNullius), players, units, the queue of
newly-registered executions, the outbound display events, and the parts of
`Game`/`Config` the executions consult (`canAttackPlayer` permission,
`maxTroops`, current tick). -/
structure GameState where
  map : GameMap
  ownerOf : TileRef → Option PlayerId
  players : PlayerId → PlayerState
  units : List Unit
  nextUnitId : Nat
  pendingExecs : List PendingExec
  messages : List DisplayEvent
  canAttackRel : PlayerId → PlayerId → Bool
  maxTroopsOf : PlayerId → Int
  curTick : Nat

/-- `mg.isValidRef(tile)`. -/
def GameState.isValidRef (gs : GameState) (r : TileRef) : Bool :=
  gs.map.isValidRef r

/-- `mg.owner(tile)`: the owning player, or `none` for TerraNullius. -/
def GameState.owner (gs : GameState) (r : TileRef) : Option PlayerId :=
  gs.ownerOf r

/-- Replace one player's record. -/
def GameState.updatePlayer (gs : GameState) (p : PlayerId)
    (f : PlayerState → PlayerState) : GameState :=
  { gs with players := fun q => if q = p then f (gs.players q) else gs.players q }

/-- Modelled from the spec: `player.addTroops(delta)` adjusts the player's
troop pool by `delta`. -/
def GameState.addTroops (gs : GameState) (p : PlayerId) (delta : Int) : GameState :=
  gs.updatePlayer p (fun pl => { pl with troops := pl.troops + delta })

/-- Modelled from the spec: `player.addGold(delta)` adjusts the player's
gold by `delta`. -/
def GameState.addGold (gs : GameState) (p : PlayerId) (delta : Int) : GameState :=
  gs.updatePlayer p (fun pl => { pl with gold := pl.gold + delta })

/-- Modelled from the spec: `player.conquer(tile)` transfers ownership of
the tile to the player. -/
def GameState.conquer (gs : GameState) (p : PlayerId) (t : TileRef) : GameState :=
  { gs with ownerOf := fun r => if r = t then some p else gs.ownerOf r }

/-- Modelled from the spec: `player.units(type)` lists the player's active
units of the given type (units under construction are included — the
callers filter them explicitly). -/
def GameState.playerUnits (gs : GameState) (p : PlayerId) (ty : UnitType) : List Unit :=
  gs.units.filter (fun u => u.owner == p && u.unitType == ty && u.active)

/-- Look a unit up by identifier. -/
def GameState.getUnit (gs : GameState) (uid : Nat) : Option Unit :=
  gs.units.find? (fun u => u.id == uid)

/-- `unit.isActive()` for a unit identifier (false when the unit is gone). -/
def GameState.unitIsActive (gs : GameState) (uid : Nat) : Bool :=
  match gs.getUnit uid with
  | some u => u.active
  | none => false

/-- `unit.troops()` for a unit identifier (0 when the unit is gone). -/
def GameState.unitTroops (gs : GameState) (uid : Nat) : Int :=
  match gs.getUnit uid with
  | some u => u.troops
  | none => 0

/-- `unit.delete(false)`: the unit becomes inactive; nothing is refunded. -/
def GameState.deleteUnit (gs : GameState) (uid : Nat) : GameState :=
  { gs with units := gs.units.map (fun u => if u.id = uid then { u with active := false } else u) }

/-- `unit.move(tile)`: relocate the unit. -/
def GameState.moveUnit (gs : GameState) (uid : Nat) (t : TileRef) : GameState :=
  { gs with units := gs.units.map (fun u => if u.id = uid then { u with tile := t } else u) }

/-- Modelled from the spec: `player.buildUnit(type, tile, params)` creates
a fresh active unit at the tile with the given payload and returns it
(transport planes spawn fully built, not under construction). -/
def GameState.buildUnit (gs : GameState) (p : PlayerId) (ty : UnitType) (t : TileRef)
    (troops : Int) (targetTile sourceTile : Option TileRef) : Nat × GameState :=
  (gs.nextUnitId,
   { gs with
     units := gs.units ++ [{ id := gs.nextUnitId, unitType := ty, owner := p, tile := t,
                             underConstruction := false, troops := troops,
                             targetTile := targetTile, sourceTile := sourceTile,
                             active := true }]
     nextUnitId := gs.nextUnitId + 1 })

/-- `mg.displayMessage(key, type, playerId)`: append a display event. -/
def GameState.displayMessage (gs : GameState) (key : String) (mt : MessageType)
    (p : PlayerId) : GameState :=
  { gs with messages := gs.messages ++ [DisplayEvent.message key mt p] }

/-- `mg.displayIncomingUnit(unitId, text, type, playerId)`. -/
def GameState.displayIncomingUnit (gs : GameState) (uid : Nat) (mt : MessageType)
    (p : PlayerId) : GameState :=
  { gs with messages := gs.messages ++ [DisplayEvent.incomingUnit uid mt p] }

/-- `mg.addExecution(e)`: queue an execution for initialization on the next
tick. -/
def GameState.addExecution (gs : GameState) (e : PendingExec) : GameState :=
  { gs with pendingExecs := gs.pendingExecs ++ [e] }

/-- Modelled from the spec: `attacker.isOnSameTeam(target)` — a player is
friendly to itself and to players sharing its (declared) team. -/
def GameState.isOnSameTeam (gs : GameState) (p q : PlayerId) : Bool :=
  p == q ||
    match (gs.players p).team, (gs.players q).team with
    | some a, some b => a == b
    | _, _ => false

/-- `attacker.canAttackPlayer(target)`: the game's attack-permission
predicate (alliances, truces — external to the provided sources, carried
as a relation in the state). -/
def GameState.canAttackPlayer (gs : GameState) (p q : PlayerId) : Bool :=
  gs.canAttackRel p q

/-- Modelled from the spec: `player.isAlive()`. -/
def GameState.isAlive (gs : GameState) (p : PlayerId) : Bool :=
  (gs.players p).alive

/-- Modelled from the spec: `player.hasResearch(type)` — whether the
research is marked completed for the player. -/
def GameState.hasResearch (gs : GameState) (p : PlayerId)
    (t : Research2.ResearchType) : Bool :=
  match (gs.players p).researches t with
  | some st => st.completed
  | none => false

/-- Modelled from the spec: `player.canStartResearch(type)` holds when no
research is currently in progress, every prerequisite is completed, the
player's gold covers the cost, and the research is not already completed. -/
def GameState.canStartResearch (gs : GameState) (p : PlayerId)
    (t : Research2.ResearchType) : Bool :=
  let d := Research2.getResearchDefinition t
  (gs.players p).currentResearch == none &&
    d.prerequisites.all (fun pre => gs.hasResearch p pre) &&
    d.cost ≤ (gs.players p).gold &&
    !(gs.hasResearch p t)

/-- Modelled from the spec: `player.startResearch(type)` — when the
research can be started, deduct its gold cost atomically, record the
research as in progress (started at the current tick), and return true;
otherwise return false with no effect. -/
def GameState.startResearch (gs : GameState) (p : PlayerId)
    (t : Research2.ResearchType) : Bool × GameState :=
  if gs.canStartResearch p t then
    (true,
     gs.updatePlayer p (fun pl =>
       { pl with
         gold := pl.gold - (Research2.getResearchDefinition t).cost
         currentResearch := some t
         researches := fun t2 =>
           if t2 = t then
             some { type := t, completed := false, startedAt := some gs.curTick,
                    completedAt := none }
           else pl.researches t2 }))
  else (false, gs)

/-- Modelled from the spec: `player.completeResearch()` — mark the current
in-progress research completed at the current tick and clear the
in-progress slot; no-op when nothing is in progress. -/
def GameState.completeResearch (gs : GameState) (p : PlayerId) : GameState :=
  match (gs.players p).currentResearch with
  | some t =>
    gs.updatePlayer p (fun pl =>
      { pl with
        currentResearch := none
        researches := fun t2 =>
          if t2 = t then
            some { type := t, completed := true,
                   startedAt := (match pl.researches t with
                                 | some st => st.startedAt
                                 | none => none),
                   completedAt := some gs.curTick }
          else pl.researches t2 })
  | none => gs

/-- The research types currently marked completed for a player, in enum
declaration order (the list fed to `calculateCombinedBonuses`). -/
def GameState.completedResearchTypes (gs : GameState) (p : PlayerId) :
    List Research2.ResearchType :=
  Research2.ResearchType.values.filter (fun t => gs.hasResearch p t)

end OpenWar

namespace OpenWar

/-- The squared straight-line distance between two tiles.  The source
compares `Math.sqrt` of this quantity; square root is strictly monotone on
nonnegative reals, so the squared distances are compared directly. -/
def distSq (m : GameMap) (a b : TileRef) : Int :=
  ((m.x a : Int) - m.x b) * ((m.x a : Int) - m.x b) +
    ((m.y a : Int) - m.y b) * ((m.y a : Int) - m.y b)

/-- The closest-airport scan of `TransportPlaneExecution.init`: walk the
airport list, skip airports under construction, and keep the first airport
whose distance to the destination is strictly smaller than the best so
far (`closestDist` starts at `Infinity`, modelled by `none`). -/
def closestAirportAux (m : GameMap) (dst : TileRef) :
    List Unit → Option (Unit × Int) → Option (Unit × Int)
  | [], best => best
  | airport :: rest, best =>
    if airport.underConstruction then closestAirportAux m dst rest best
    else
      let dist := distSq m dst airport.tile
      match best with
      | none => closestAirportAux m dst rest (some (airport, dist))
      | some (b, bd) =>
        if dist < bd then closestAirportAux m dst rest (some (airport, dist))
        else closestAirportAux m dst rest (some (b, bd))

/-- The airport selected by the closest-airport scan (`null` when no
available airport exists). -/
def findClosestAirport (m : GameMap) (dst : TileRef) (airports : List Unit) :
    Option Unit :=
  (closestAirportAux m dst airports none).map Prod.fst

/-- `Math.round` on an exact rational: round half up. -/
def jsRound (q : ℚ) : Int := ⌊q + 1/2⌋

/-- The number of path steps: `Math.ceil(dist / 3)` where `dist` is the
straight-line distance, i.e. the least `s` with `dist ≤ 3s`, computed from
the squared distance (for `d2 ≥ 1`, `⌈√d2⌉ - 1 = ⌊√(d2-1)⌋`). -/
def stepsOfDistSq (d2 : Nat) : Nat :=
  if d2 = 0 then 0 else Nat.sqrt (d2 - 1) / 3 + 1

/-- `TransportPlaneExecution.calculatePath`: a discretized straight line of
tile references from source to destination, about three tiles per step,
with out-of-bounds samples dropped, and the destination appended when it
is not already the final sample. -/
def calculatePath (m : GameMap) (src dst : TileRef) : List TileRef :=
  let srcX : Int := m.x src
  let srcY : Int := m.y src
  let dstX : Int := m.x dst
  let dstY : Int := m.y dst
  let d2 : Nat := ((dstX - srcX) * (dstX - srcX) + (dstY - srcY) * (dstY - srcY)).toNat
  let steps := stepsOfDistSq d2
  let tiles := (List.range steps).filterMap (fun i0 =>
    let i : Nat := i0 + 1
    let t : ℚ := (i : ℚ) / (steps : ℚ)
    let x : Int := jsRound ((srcX : ℚ) + ((dstX - srcX : Int) : ℚ) * t)
    let y : Int := jsRound ((srcY : ℚ) + ((dstY - srcY : Int) : ℚ) * t)
    if m.isValidCoord x y then some (m.ref x.toNat y.toNat) else none)
  if tiles.isEmpty || tiles.getLast? != some dst then tiles ++ [dst] else tiles

/-- The state of a `TransportPlaneExecution` (the copy of the source with
the landing-on-water rule): constructor arguments plus the mutable fields,
with their pre-`init` defaults. -/
structure TransportPlaneExecution where
  attacker : PlayerId
  dstTile : TileRef
  troops : Int
  active : Bool := true
  ticksPerMove : Nat := 2
  lastMove : Nat := 0
  target : Option PlayerId := none
  dst : TileRef := 0
  src : TileRef := 0
  plane : Nat := 0
  pathTiles : List TileRef := []
  pathIndex : Nat := 0
deriving Repr

/-- `TransportPlaneExecution.init`: validate the destination, require an
airport (emitting a failure message when there is none), reject same-team
or unattackable targets, pick the closest available airport, truncate the
committed troops to the attacker's pool, deduct them, compute the path,
build the plane unit, and notify a player target of the incoming drop.
Every failed precondition only clears the active flag. -/
def TransportPlaneExecution.init (e : TransportPlaneExecution) (mg : GameState)
    (ticks : Nat) : TransportPlaneExecution × GameState :=
  if !(mg.isValidRef e.dstTile) then ({ e with active := false }, mg)
  else
    let e := { e with lastMove := ticks, target := mg.owner e.dstTile }
    let airports := mg.playerUnits e.attacker UnitType.Airport
    if airports.length = 0 then
      ({ e with active := false },
       mg.displayMessage "events_display.no_airport" MessageType.ATTACK_FAILED e.attacker)
    else
      let targetBlocked :=
        match e.target with
        | some q => mg.isOnSameTeam e.attacker q || !(mg.canAttackPlayer e.attacker q)
        | none => false
      if targetBlocked then ({ e with active := false }, mg)
      else
        match findClosestAirport mg.map e.dstTile airports with
        | none => ({ e with active := false }, mg)
        | some closestAirport =>
          let e := { e with src := closestAirport.tile, dst := e.dstTile }
          let e := { e with troops := min e.troops ((mg.players e.attacker).troops) }
          if e.troops ≤ 0 then ({ e with active := false }, mg)
          else
            let mg := mg.addTroops e.attacker (-e.troops)
            let e := { e with pathTiles := calculatePath mg.map e.src e.dst }
            let built := mg.buildUnit e.attacker UnitType.TransportPlane e.src e.troops
              (some e.dst) (some e.src)
            let e := { e with plane := built.1 }
            let mg :=
              match e.target with
              | some q =>
                built.2.displayIncomingUnit built.1 MessageType.NAVAL_INVASION_INBOUND q
              | none => built.2
            (e, mg)

/-- `TransportPlaneExecution.landTroops`: read the carried troops, delete
the plane, and then — landing on water loses the troops; landing on land
conquers the tile and either starts an `AttackExecution` seeded with the
carried troops (enemy owner) or returns the troops to the attacker
(friendly owner or TerraNullius). -/
def TransportPlaneExecution.landTroops (e : TransportPlaneExecution) (mg : GameState) :
    TransportPlaneExecution × GameState :=
  let troops := mg.unitTroops e.plane
  let mg := mg.deleteUnit e.plane
  let currentOwner := mg.owner e.dst
  if !(mg.map.isLand e.dst) then ({ e with active := false }, mg)
  else
    let mg := mg.conquer e.attacker e.dst
    match currentOwner with
    | some q =>
      if !(mg.isOnSameTeam e.attacker q) then
        let mg := mg.addExecution (PendingExec.attack troops e.attacker q e.dst false)
        let mg := mg.displayMessage "events_display.paratrooper_landed"
          MessageType.ATTACK_REQUEST e.attacker
        ({ e with active := false }, mg)
      else ({ e with active := false }, mg.addTroops e.attacker troops)
    | none => ({ e with active := false }, mg.addTroops e.attacker troops)

/-- `TransportPlaneExecution.tick`: inactive executions return immediately;
a deleted plane deactivates the execution; the plane advances one path
step every `ticksPerMove` ticks and lands upon exhausting the path. -/
def TransportPlaneExecution.tick (e : TransportPlaneExecution) (mg : GameState)
    (ticks : Nat) : TransportPlaneExecution × GameState :=
  if !e.active then (e, mg)
  else if !(mg.unitIsActive e.plane) then ({ e with active := false }, mg)
  else if ticks - e.lastMove < e.ticksPerMove then (e, mg)
  else
    let e := { e with lastMove := ticks }
    let moved : TransportPlaneExecution × GameState :=
      if e.pathIndex < e.pathTiles.length then
        let nextTile := e.pathTiles.getD e.pathIndex 0
        ({ e with pathIndex := e.pathIndex + 1 }, mg.moveUnit e.plane nextTile)
      else (e, mg)
    if moved.1.pathTiles.length ≤ moved.1.pathIndex then
      TransportPlaneExecution.landTroops moved.1 moved.2
    else moved

/-- The state of a `ResearchExecution`. -/
structure ResearchExecution where
  player : PlayerId
  researchType : Research2.ResearchType
  active : Bool := true
  completionTick : Option Nat := none
deriving Repr

/-- `ResearchExecution.init`: deactivate (with no effect) unless the player
can start the research, start it (deducting its gold cost), and store the
completion tick. -/
def ResearchExecution.init (e : ResearchExecution) (mg : GameState) (ticks : Nat) :
    ResearchExecution × GameState :=
  if !(mg.canStartResearch e.player e.researchType) then ({ e with active := false }, mg)
  else
    let started := mg.startResearch e.player e.researchType
    if !started.1 then ({ e with active := false }, started.2)
    else
      let d := Research2.getResearchDefinition e.researchType
      ({ e with completionTick := some (ticks + d.durationTicks) }, started.2)

/-- `ResearchExecution.tick`: no-op while inactive or uninitialized; a dead
player deactivates the execution with no effect; reaching the stored
completion tick completes the research and deactivates. -/
def ResearchExecution.tick (e : ResearchExecution) (mg : GameState) (ticks : Nat) :
    ResearchExecution × GameState :=
  if !e.active || e.completionTick.isNone then (e, mg)
  else if !(mg.isAlive e.player) then ({ e with active := false }, mg)
  else
    match e.completionTick with
    | some c =>
      if c ≤ ticks then ({ e with active := false }, mg.completeResearch e.player)
      else (e, mg)
    | none => (e, mg)

/-- The state of an `AirportExecution`. -/
structure AirportExecution where
  airport : Nat
  active : Bool := true
deriving Repr

/-- `AirportExecution.tick`: deactivate when the airport unit is gone;
otherwise do nothing (the under-construction early return and the passive
body both leave every state component unchanged). -/
def AirportExecution.tick (e : AirportExecution) (mg : GameState) (ticks : Nat) :
    AirportExecution × GameState :=
  if !(mg.unitIsActive e.airport) then ({ e with active := false }, mg)
  else (e, mg)

/-- The admin actions of `AdminExecution`. -/
inductive AdminAction where
  | unlock_research
  | add_gold
  | add_troops
deriving DecidableEq, Repr

/-- The state of an `AdminExecution`. -/
structure AdminExecution where
  player : PlayerId
  action : AdminAction
  amount : Option Int := none
  active : Bool := true
deriving Repr

/-- The body of the `unlock_research` loop: mark the research completed
(started and completed at the current tick) unless it already is. -/
def unlockOne (currentTick : Nat) (rs : Research2.ResearchType → Option ResearchState)
    (t : Research2.ResearchType) : Research2.ResearchType → Option ResearchState :=
  let alreadyCompleted :=
    match rs t with
    | some st => st.completed
    | none => false
  if alreadyCompleted then rs
  else fun t2 =>
    if t2 = t then
      some { type := t, completed := true, startedAt := some currentTick,
             completedAt := some currentTick }
    else rs t2

/-- `AdminExecution.tick`: run the requested admin action once, then
deactivate.  The `unlock_research` loop iterates over
`Object.values(ResearchType)` but only processes values of number type;
`add_gold` adds the given amount; `add_troops` adds up to the player's
troop cap (`-1` meaning fill to the cap). -/
def AdminExecution.tick (e : AdminExecution) (mg : GameState) (ticks : Nat) :
    AdminExecution × GameState :=
  if !e.active then (e, mg)
  else
    let mg :=
      match e.action with
      | AdminAction.unlock_research =>
        let currentTick := mg.curTick
        let rs :=
          Research2.ResearchType.values.foldl (fun rs t =>
            if (Research2.ResearchType.enumValue t).typeofIsNumber then
              unlockOne currentTick rs t
            else rs) ((mg.players e.player).researches)
        mg.updatePlayer e.player (fun pl =>
          { pl with researches := rs, currentResearch := none })
      | AdminAction.add_gold =>
        match e.amount with
        | some amount => mg.addGold e.player amount
        | none => mg
      | AdminAction.add_troops =>
        match e.amount with
        | some amount =>
          if amount = -1 then
            let currentTroops := (mg.players e.player).troops
            let maxTroops := mg.maxTroopsOf e.player
            let toAdd := maxTroops - currentTroops
            if 0 < toAdd then mg.addTroops e.player toAdd else mg
          else
            let currentTroops := (mg.players e.player).troops
            let maxTroops := mg.maxTroopsOf e.player
            let available := maxTroops - currentTroops
            let toAdd := min amount available
            if 0 < toAdd then mg.addTroops e.player toAdd else mg
        | none => mg
    ({ e with active := false }, mg)

end OpenWar

namespace OpenWar

/-- A small concrete player record for witnesses. -/
def samplePlayer : PlayerState :=
  { troops := 100, gold := 1000000, team := none, alive := true,
    researches := fun _ => none, currentResearch := none }

/-- A small concrete 2×2 all-land map for witnesses. -/
def sampleMap : GameMap := { width := 2, height := 2, isLandAt := fun _ => true }

/-- A small concrete game state for witnesses. -/
def sampleState : GameState :=
  { map := sampleMap
    ownerOf := fun _ => none
    players := fun _ => samplePlayer
    units := []
    nextUnitId := 1
    pendingExecs := []
    messages := []
    canAttackRel := fun _ _ => true
    maxTroopsOf := fun _ => 1000
    curTick := 0 }

end OpenWar

/-- C8: for each execution kind (transport plane, research, airport,
admin), once the active flag is false, calling `tick` again has no
observable side effect on the game state — the terminal state is
idempotent. -/
theorem tick_inactive_no_effect :
    (∀ (e : OpenWar.TransportPlaneExecution) (mg : OpenWar.GameState) (t : Nat),
        e.active = false → (OpenWar.TransportPlaneExecution.tick e mg t).2 = mg) ∧
    (∀ (e : OpenWar.ResearchExecution) (mg : OpenWar.GameState) (t : Nat),
        e.active = false → (OpenWar.ResearchExecution.tick e mg t).2 = mg) ∧
    (∀ (e : OpenWar.AirportExecution) (mg : OpenWar.GameState) (t : Nat),
        e.active = false → (OpenWar.AirportExecution.tick e mg t).2 = mg) ∧
    (∀ (e : OpenWar.AdminExecution) (mg : OpenWar.GameState) (t : Nat),
        e.active = false → (OpenWar.AdminExecution.tick e mg t).2 = mg) := by
  refine ⟨?_, ?_, ?_, ?_⟩
  · intro e mg t h
    simp [OpenWar.TransportPlaneExecution.tick, h]
  · intro e mg t h
    simp [OpenWar.ResearchExecution.tick, h]
  · intro e mg t h
    cases hb : mg.unitIsActive e.airport <;> simp [OpenWar.AirportExecution.tick, hb]
  · intro e mg t h
    simp [OpenWar.AdminExecution.tick, h]

/-- Witness for C8: the four parts of `tick_inactive_no_effect` applied to
concrete inactive executions on the sample state. -/
theorem tick_inactive_no_effect_witness :
    (OpenWar.TransportPlaneExecution.tick
      { attacker := 0, dstTile := 0, troops := 5, active := false }
      OpenWar.sampleState 3).2 = OpenWar.sampleState ∧
    (OpenWar.ResearchExecution.tick
      { player := 0, researchType := Research2.ResearchType.InfantryImprovements,
        active := false }
      OpenWar.sampleState 3).2 = OpenWar.sampleState ∧
    (OpenWar.AirportExecution.tick { airport := 7, active := false }
      OpenWar.sampleState 3).2 = OpenWar.sampleState ∧
    (OpenWar.AdminExecution.tick
      { player := 0, action := OpenWar.AdminAction.add_gold, amount := some 5,
        active := false }
      OpenWar.sampleState 3).2 = OpenWar.sampleState :=
  ⟨tick_inactive_no_effect.1 _ _ _ rfl,
   tick_inactive_no_effect.2.1 _ _ _ rfl,
   tick_inactive_no_effect.2.2.1 _ _ _ rfl,
   tick_inactive_no_effect.2.2.2 _ _ _ rfl⟩

/-- C7: a research execution whose player is eliminated before the stored
completion tick deactivates with no further effect: the game state is
unchanged (so the research is not marked completed and the gold spent at
start is not refunded), and every later tick of the deactivated execution
is also without effect. -/
theorem researchTick_eliminated_no_effect
    (e : OpenWar.ResearchExecution) (mg : OpenWar.GameState) (t c : Nat)
    (hact : e.active = true) (hct : e.completionTick = some c)
    (hdead : (mg.players e.player).alive = false) :
    (OpenWar.ResearchExecution.tick e mg t).1.active = false ∧
    (OpenWar.ResearchExecution.tick e mg t).2 = mg ∧
    (∀ (t2 : Nat) (mg2 : OpenWar.GameState),
      (OpenWar.ResearchExecution.tick (OpenWar.ResearchExecution.tick e mg t).1 mg2 t2).2 =
        mg2) := by
  have h1 : (OpenWar.ResearchExecution.tick e mg t) = ({ e with active := false }, mg) := by
    simp [OpenWar.ResearchExecution.tick, hact, hct, OpenWar.GameState.isAlive, hdead]
  refine ⟨by rw [h1], by rw [h1], ?_⟩
  intro t2 mg2
  rw [h1]
  simp [OpenWar.ResearchExecution.tick]

/-- Witness for C7: a concrete research execution mid-research whose player
is dead. -/
theorem researchTick_eliminated_no_effect_witness :
    (OpenWar.ResearchExecution.tick
      { player := 0, researchType := Research2.ResearchType.InfantryImprovements,
        active := true, completionTick := some 300 }
      { OpenWar.sampleState with
        players := fun _ => { OpenWar.samplePlayer with alive := false } } 100).2 =
      { OpenWar.sampleState with
        players := fun _ => { OpenWar.samplePlayer with alive := false } } :=
  (researchTick_eliminated_no_effect _ _ 100 300 rfl rfl rfl).2.1

/-- C2: for a transport/airdrop execution issued with committed troops T
while the attacker holds pool P, if initialization succeeds then the
executed commitment is min(T, P) and the attacker's pool immediately after
commitment is P − min(T, P); over-commitment truncates rather than
rejecting the order. -/
theorem transportInit_commitment
    (e : OpenWar.TransportPlaneExecution) (mg : OpenWar.GameState) (ticks : Nat)
    (hsucc : (OpenWar.TransportPlaneExecution.init e mg ticks).1.active = true) :
    (OpenWar.TransportPlaneExecution.init e mg ticks).1.troops =
      min e.troops ((mg.players e.attacker).troops) ∧
    ((OpenWar.TransportPlaneExecution.init e mg ticks).2.players e.attacker).troops =
      (mg.players e.attacker).troops - min e.troops ((mg.players e.attacker).troops) := by
  revert hsucc
  unfold OpenWar.TransportPlaneExecution.init
  dsimp only
  split
  · intro hsucc; simp at hsucc
  · split
    · intro hsucc; simp at hsucc
    · split
      · intro hsucc; simp at hsucc
      · split
        · intro hsucc; simp at hsucc
        · split
          · intro hsucc; simp at hsucc
          · intro _
            split <;>
              simp [OpenWar.GameState.addTroops, OpenWar.GameState.updatePlayer,
                OpenWar.GameState.buildUnit, OpenWar.GameState.displayIncomingUnit] <;>
              omega

namespace OpenWar

/-- A completed airport unit owned by player 0 at tile 0, for witnesses. -/
def sampleAirportUnit : Unit :=
  { id := 1, unitType := UnitType.Airport, owner := 0, tile := 0,
    underConstruction := false, troops := 0, targetTile := none,
    sourceTile := none, active := true }

/-- The sample state extended with one completed airport for player 0. -/
def sampleStateA : GameState :=
  { sampleState with units := [sampleAirportUnit], nextUnitId := 2 }

end OpenWar

/-- Witness for C2: player 0 (pool 100) over-commits 200 troops to a drop
on unclaimed tile 3; init succeeds, commits 100 and leaves a pool of 0. -/
theorem transportInit_commitment_witness :
    (OpenWar.TransportPlaneExecution.init
      { attacker := 0, dstTile := 3, troops := 200 } OpenWar.sampleStateA 0).1.troops =
      min 200 ((OpenWar.sampleStateA.players 0).troops) ∧
    ((OpenWar.TransportPlaneExecution.init
      { attacker := 0, dstTile := 3, troops := 200 } OpenWar.sampleStateA 0).2.players
        0).troops =
      (OpenWar.sampleStateA.players 0).troops -
        min 200 ((OpenWar.sampleStateA.players 0).troops) :=
  transportInit_commitment _ _ _ (by rfl)

lemma startResearch_fst (mg : OpenWar.GameState) (p : PlayerId)
    (t : Research2.ResearchType) :
    (mg.startResearch p t).1 = mg.canStartResearch p t := by
  unfold OpenWar.GameState.startResearch
  split <;> simp_all

lemma transportInit_inactive_frame
    (e : OpenWar.TransportPlaneExecution) (mg : OpenWar.GameState) (ticks : Nat)
    (hact : e.active = true)
    (hfail : (OpenWar.TransportPlaneExecution.init e mg ticks).1.active = false) :
    (OpenWar.TransportPlaneExecution.init e mg ticks).2.players = mg.players ∧
    (OpenWar.TransportPlaneExecution.init e mg ticks).2.units = mg.units ∧
    (OpenWar.TransportPlaneExecution.init e mg ticks).2.ownerOf = mg.ownerOf ∧
    (OpenWar.TransportPlaneExecution.init e mg ticks).2.pendingExecs = mg.pendingExecs := by
  revert hfail
  unfold OpenWar.TransportPlaneExecution.init
  dsimp only
  split
  · intro _
    simp
  · split
    · intro _
      simp [OpenWar.GameState.displayMessage]
    · split
      · intro _
        simp
      · split
        · intro _
          simp
        · split
          · intro _
            simp
          · intro hfail
            split at hfail <;> simp [hact] at hfail

lemma transportInit_precond_fail_active
    (e : OpenWar.TransportPlaneExecution) (mg : OpenWar.GameState) (ticks : Nat)
    (hfail : mg.isValidRef e.dstTile = false ∨
      mg.playerUnits e.attacker OpenWar.UnitType.Airport = [] ∨
      (∃ q, mg.owner e.dstTile = some q ∧
        (mg.isOnSameTeam e.attacker q = true ∨
         mg.canAttackPlayer e.attacker q = false)) ∨
      min e.troops ((mg.players e.attacker).troops) ≤ 0) :
    (OpenWar.TransportPlaneExecution.init e mg ticks).1.active = false := by
  unfold OpenWar.TransportPlaneExecution.init
  dsimp only
  by_cases h1 : mg.isValidRef e.dstTile = true
  · simp only [h1, Bool.not_true, Bool.false_eq_true, if_false]
    by_cases h2 : (mg.playerUnits e.attacker OpenWar.UnitType.Airport).length = 0
    · simp [h2]
    · rw [if_neg h2]
      rcases hfail with hf | hf | ⟨q, hq, hforb⟩ | hf
      · rw [h1] at hf
        exact absurd hf (by simp)
      · exact absurd (by rw [hf]; rfl) h2
      · have htb : (match mg.owner e.dstTile with
            | some q => mg.isOnSameTeam e.attacker q || !(mg.canAttackPlayer e.attacker q)
            | none => false) = true := by
          rw [hq]
          rcases hforb with h | h <;> simp [h]
        simp [htb]
      · split <;> try rfl
        all_goals try (split <;> try rfl)
  · simp [Bool.not_eq_true] at h1
    simp [h1]

/-- C4: an execution whose `init` fails a precondition (invalid
destination, no airport, same-team or unattackable target, zero effective
troops, or a research the player cannot start) sets the active flag to
false and performs no further effect: player records (troops, gold,
research state), units, map ownership and the execution queue are
unchanged — at most a display message is emitted.  Stated for the
transport plane init and the research init. -/
theorem init_failure_no_effect :
    (∀ (e : OpenWar.TransportPlaneExecution) (mg : OpenWar.GameState) (ticks : Nat),
      e.active = true →
      (mg.isValidRef e.dstTile = false ∨
       mg.playerUnits e.attacker OpenWar.UnitType.Airport = [] ∨
       (∃ q, mg.owner e.dstTile = some q ∧
         (mg.isOnSameTeam e.attacker q = true ∨
          mg.canAttackPlayer e.attacker q = false)) ∨
       min e.troops ((mg.players e.attacker).troops) ≤ 0) →
      ((OpenWar.TransportPlaneExecution.init e mg ticks).1.active = false ∧
       (OpenWar.TransportPlaneExecution.init e mg ticks).2.players = mg.players ∧
       (OpenWar.TransportPlaneExecution.init e mg ticks).2.units = mg.units ∧
       (OpenWar.TransportPlaneExecution.init e mg ticks).2.ownerOf = mg.ownerOf ∧
       (OpenWar.TransportPlaneExecution.init e mg ticks).2.pendingExecs =
         mg.pendingExecs)) ∧
    (∀ (e : OpenWar.ResearchExecution) (mg : OpenWar.GameState) (ticks : Nat),
      mg.canStartResearch e.player e.researchType = false →
      ((OpenWar.ResearchExecution.init e mg ticks).1.active = false ∧
       (OpenWar.ResearchExecution.init e mg ticks).2 = mg)) := by
  constructor
  · intro e mg ticks hact hfail
    have ha := transportInit_precond_fail_active e mg ticks hfail
    exact ⟨ha, transportInit_inactive_frame e mg ticks hact ha⟩
  · intro e mg ticks hcs
    unfold OpenWar.ResearchExecution.init
    dsimp only
    simp [hcs]

namespace OpenWar

/-- A state where players 0 and 1 are both on team 5, player 1 owns tile 3,
and player 0 has a completed airport: a same-team transport target. -/
def sampleTeamState : GameState :=
  { sampleState with
    units := [sampleAirportUnit]
    nextUnitId := 2
    ownerOf := fun r => if r = 3 then some 1 else none
    players := fun _ => { samplePlayer with team := some 5 } }

/-- A state where player 0 already has a research in progress. -/
def sampleBusyState : GameState :=
  { sampleState with
    players := fun _ =>
      { samplePlayer with currentResearch := some Research2.ResearchType.BetterTech } }

end OpenWar

/-- Witness for C4: a transport order by player 0 against a target on its
own team (both on team 5) deactivates without deducting troops or building
a plane, and a research init that cannot start (research already in
progress) deactivates and leaves the state unchanged. -/
theorem init_failure_no_effect_witness :
    ((OpenWar.TransportPlaneExecution.init { attacker := 0, dstTile := 3, troops := 50 }
        OpenWar.sampleTeamState 0).1.active = false ∧
     (OpenWar.TransportPlaneExecution.init { attacker := 0, dstTile := 3, troops := 50 }
        OpenWar.sampleTeamState 0).2.players = OpenWar.sampleTeamState.players ∧
     (OpenWar.TransportPlaneExecution.init { attacker := 0, dstTile := 3, troops := 50 }
        OpenWar.sampleTeamState 0).2.units = OpenWar.sampleTeamState.units ∧
     (OpenWar.TransportPlaneExecution.init { attacker := 0, dstTile := 3, troops := 50 }
        OpenWar.sampleTeamState 0).2.ownerOf = OpenWar.sampleTeamState.ownerOf ∧
     (OpenWar.TransportPlaneExecution.init { attacker := 0, dstTile := 3, troops := 50 }
        OpenWar.sampleTeamState 0).2.pendingExecs =
       OpenWar.sampleTeamState.pendingExecs) ∧
    ((OpenWar.ResearchExecution.init
      { player := 0, researchType := Research2.ResearchType.InfantryImprovements }
      OpenWar.sampleBusyState 0).1.active = false ∧
     (OpenWar.ResearchExecution.init
      { player := 0, researchType := Research2.ResearchType.InfantryImprovements }
      OpenWar.sampleBusyState 0).2 = OpenWar.sampleBusyState) :=
  ⟨init_failure_no_effect.1 { attacker := 0, dstTile := 3, troops := 50 }
      OpenWar.sampleTeamState 0 rfl
      (Or.inr (Or.inr (Or.inl ⟨1, rfl, Or.inl rfl⟩))),
   init_failure_no_effect.2
      { player := 0, researchType := Research2.ResearchType.InfantryImprovements }
      OpenWar.sampleBusyState 0 rfl⟩

/-- C10: executing the admin `unlock_research` action leaves the player's
per-research completion state entirely unchanged — the unlock loop only
processes number-typed enum values while the research enum is
string-valued — and its only research-state effect is clearing the
player's in-progress research; troops, gold, other players, units and map
ownership are untouched. -/
theorem adminUnlock_no_research_change
    (e : OpenWar.AdminExecution) (mg : OpenWar.GameState) (t : Nat)
    (hact : e.active = true)
    (haction : e.action = OpenWar.AdminAction.unlock_research) :
    ((OpenWar.AdminExecution.tick e mg t).2.players e.player).researches =
      (mg.players e.player).researches ∧
    ((OpenWar.AdminExecution.tick e mg t).2.players e.player).currentResearch = none ∧
    ((OpenWar.AdminExecution.tick e mg t).2.players e.player).troops =
      (mg.players e.player).troops ∧
    ((OpenWar.AdminExecution.tick e mg t).2.players e.player).gold =
      (mg.players e.player).gold ∧
    (∀ q, q ≠ e.player → (OpenWar.AdminExecution.tick e mg t).2.players q = mg.players q) ∧
    (OpenWar.AdminExecution.tick e mg t).2.units = mg.units ∧
    (OpenWar.AdminExecution.tick e mg t).2.ownerOf = mg.ownerOf ∧
    (OpenWar.AdminExecution.tick e mg t).1.active = false := by
  have hfold :
      Research2.ResearchType.values.foldl (fun rs t2 =>
        if (Research2.ResearchType.enumValue t2).typeofIsNumber then
          OpenWar.unlockOne mg.curTick rs t2
        else rs) ((mg.players e.player).researches) =
      (mg.players e.player).researches := by
    simp [Research2.ResearchType.values, Research2.ResearchType.enumValue,
      Research2.EnumValue.typeofIsNumber]
  simp only [OpenWar.AdminExecution.tick, hact, haction]
  simp [hfold, OpenWar.GameState.updatePlayer]
  intro q hq
  simp [hq]

/-- Witness for C10: the unlock action on the sample state. -/
theorem adminUnlock_no_research_change_witness :
    ((OpenWar.AdminExecution.tick
      { player := 0, action := OpenWar.AdminAction.unlock_research }
      OpenWar.sampleState 4).2.players 0).researches =
      (OpenWar.sampleState.players 0).researches ∧
    ((OpenWar.AdminExecution.tick
      { player := 0, action := OpenWar.AdminAction.unlock_research }
      OpenWar.sampleState 4).2.players 0).currentResearch = none :=
  ⟨(adminUnlock_no_research_change _ OpenWar.sampleState 4 rfl rfl).1,
   (adminUnlock_no_research_change _ OpenWar.sampleState 4 rfl rfl).2.1⟩

lemma unitIsActive_deleteUnit (mg : OpenWar.GameState) (uid : Nat) :
    (mg.deleteUnit uid).unitIsActive uid = false := by
  simp only [OpenWar.GameState.unitIsActive, OpenWar.GameState.getUnit,
    OpenWar.GameState.deleteUnit]
  generalize mg.units = l
  induction l with
  | nil => rfl
  | cons u rest ih =>
    simp only [List.map_cons]
    by_cases hid : u.id = uid
    · rw [if_pos hid, List.find?_cons_of_pos _ (by simp [hid])]
    · rw [if_neg hid, List.find?_cons_of_neg _ (by simp [hid])]
      exact ih

/-- C1: a transport/airdrop that reaches a water destination deletes the
plane and does not return the carried troops: every player record (so the
attacker's pool, already reduced by the committed amount) is unchanged, no
tile is conquered, and no attack execution is enqueued. -/
theorem transportLand_water_loses_troops
    (e : OpenWar.TransportPlaneExecution) (mg : OpenWar.GameState)
    (hwater : mg.map.isLand e.dst = false) :
    (OpenWar.TransportPlaneExecution.landTroops e mg).1.active = false ∧
    (OpenWar.TransportPlaneExecution.landTroops e mg).2.unitIsActive e.plane = false ∧
    (OpenWar.TransportPlaneExecution.landTroops e mg).2.players = mg.players ∧
    (OpenWar.TransportPlaneExecution.landTroops e mg).2.ownerOf = mg.ownerOf ∧
    (OpenWar.TransportPlaneExecution.landTroops e mg).2.pendingExecs = mg.pendingExecs := by
  have hkey : OpenWar.TransportPlaneExecution.landTroops e mg =
      ({ e with active := false }, mg.deleteUnit e.plane) := by
    unfold OpenWar.TransportPlaneExecution.landTroops
    dsimp only
    have hmap : (mg.deleteUnit e.plane).map = mg.map := rfl
    simp [hmap, hwater]
  rw [hkey]
  exact ⟨rfl, unitIsActive_deleteUnit mg e.plane, rfl, rfl, rfl⟩

namespace OpenWar

/-- A state whose tile 3 is water and where a transport plane (unit 1,
carrying 7 troops, owned by player 0) is in flight. -/
def sampleWaterState : GameState :=
  { sampleState with
    map := { width := 2, height := 2, isLandAt := fun r => r != 3 }
    units := [{ id := 1, unitType := UnitType.TransportPlane, owner := 0, tile := 2,
                underConstruction := false, troops := 7, targetTile := some 3,
                sourceTile := some 0, active := true }]
    nextUnitId := 2 }

end OpenWar

/-- Witness for C1: the plane of `sampleWaterState` lands on water tile 3;
the attacker's player records are unchanged and nothing is enqueued. -/
theorem transportLand_water_loses_troops_witness :
    (OpenWar.TransportPlaneExecution.landTroops
      { attacker := 0, dstTile := 3, troops := 7, dst := 3, plane := 1 }
      OpenWar.sampleWaterState).1.active = false ∧
    (OpenWar.TransportPlaneExecution.landTroops
      { attacker := 0, dstTile := 3, troops := 7, dst := 3, plane := 1 }
      OpenWar.sampleWaterState).2.unitIsActive 1 = false ∧
    (OpenWar.TransportPlaneExecution.landTroops
      { attacker := 0, dstTile := 3, troops := 7, dst := 3, plane := 1 }
      OpenWar.sampleWaterState).2.players = OpenWar.sampleWaterState.players ∧
    (OpenWar.TransportPlaneExecution.landTroops
      { attacker := 0, dstTile := 3, troops := 7, dst := 3, plane := 1 }
      OpenWar.sampleWaterState).2.ownerOf = OpenWar.sampleWaterState.ownerOf ∧
    (OpenWar.TransportPlaneExecution.landTroops
      { attacker := 0, dstTile := 3, troops := 7, dst := 3, plane := 1 }
      OpenWar.sampleWaterState).2.pendingExecs = OpenWar.sampleWaterState.pendingExecs :=
  transportLand_water_loses_troops _ _ (by rfl)

/-- C5: a transport/airdrop that reaches a land destination: when the tile
is owned by an enemy player, a new attack execution seeded with exactly
the carried troop count is enqueued and the landing tile is conquered
(the pool is not credited); when the tile is friendly-owned or unclaimed,
the carried troops are added back to the attacker's pool and no attack is
started. -/
theorem transportLand_on_land
    (e : OpenWar.TransportPlaneExecution) (mg : OpenWar.GameState)
    (hland : mg.map.isLand e.dst = true) :
    (∀ q, mg.owner e.dst = some q → mg.isOnSameTeam e.attacker q = false →
      (OpenWar.TransportPlaneExecution.landTroops e mg).2.pendingExecs =
        mg.pendingExecs ++
          [OpenWar.PendingExec.attack (mg.unitTroops e.plane) e.attacker q e.dst false] ∧
      (OpenWar.TransportPlaneExecution.landTroops e mg).2.ownerOf e.dst = some e.attacker ∧
      (OpenWar.TransportPlaneExecution.landTroops e mg).2.players = mg.players) ∧
    ((mg.owner e.dst = none ∨
        (∃ q, mg.owner e.dst = some q ∧ mg.isOnSameTeam e.attacker q = true)) →
      ((OpenWar.TransportPlaneExecution.landTroops e mg).2.players e.attacker).troops =
        (mg.players e.attacker).troops + mg.unitTroops e.plane ∧
      (OpenWar.TransportPlaneExecution.landTroops e mg).2.pendingExecs = mg.pendingExecs ∧
      (OpenWar.TransportPlaneExecution.landTroops e mg).2.ownerOf e.dst =
        some e.attacker) := by
  constructor
  · intro q hq hteam
    have hkey : OpenWar.TransportPlaneExecution.landTroops e mg =
        ({ e with active := false },
         (((mg.deleteUnit e.plane).conquer e.attacker e.dst).addExecution
             (OpenWar.PendingExec.attack (mg.unitTroops e.plane) e.attacker q e.dst
               false)).displayMessage "events_display.paratrooper_landed"
           OpenWar.MessageType.ATTACK_REQUEST e.attacker) := by
      unfold OpenWar.TransportPlaneExecution.landTroops
      dsimp only
      simp only [OpenWar.GameState.owner] at hq
      have hland2 : (mg.deleteUnit e.plane).map.isLand e.dst = true := hland
      have hq2 : (mg.deleteUnit e.plane).owner e.dst = some q := hq
      have hteam2 : ((mg.deleteUnit e.plane).conquer e.attacker e.dst).isOnSameTeam
          e.attacker q = false := hteam
      simp [hland2, hq2, hteam2]
    rw [hkey]
    refine ⟨rfl, ?_, rfl⟩
    simp [OpenWar.GameState.displayMessage, OpenWar.GameState.addExecution,
      OpenWar.GameState.conquer, OpenWar.GameState.deleteUnit]
  · intro hcase
    have hkey : OpenWar.TransportPlaneExecution.landTroops e mg =
        ({ e with active := false },
         ((mg.deleteUnit e.plane).conquer e.attacker e.dst).addTroops e.attacker
           (mg.unitTroops e.plane)) := by
      unfold OpenWar.TransportPlaneExecution.landTroops
      dsimp only
      have hland2 : (mg.deleteUnit e.plane).map.isLand e.dst = true := hland
      rcases hcase with hnone | ⟨q, hq, hteam⟩
      · simp only [OpenWar.GameState.owner] at hnone
        have hnone2 : (mg.deleteUnit e.plane).owner e.dst = none := hnone
        simp [hland2, hnone2]
      · simp only [OpenWar.GameState.owner] at hq
        have hq2 : (mg.deleteUnit e.plane).owner e.dst = some q := hq
        have hteam2 : ((mg.deleteUnit e.plane).conquer e.attacker e.dst).isOnSameTeam
            e.attacker q = true := hteam
        simp [hland2, hq2, hteam2]
    rw [hkey]
    refine ⟨?_, rfl, ?_⟩
    · simp [OpenWar.GameState.addTroops, OpenWar.GameState.updatePlayer,
        OpenWar.GameState.conquer, OpenWar.GameState.deleteUnit]
    · simp [OpenWar.GameState.addTroops, OpenWar.GameState.updatePlayer,
        OpenWar.GameState.conquer, OpenWar.GameState.deleteUnit]

namespace OpenWar

/-- A state where enemy player 1 owns land tile 3 and a transport plane
(unit 1, carrying 5 troops, owned by player 0) is in flight. -/
def sampleEnemyState : GameState :=
  { sampleState with
    ownerOf := fun r => if r = 3 then some 1 else none
    units := [{ id := 1, unitType := UnitType.TransportPlane, owner := 0, tile := 2,
                underConstruction := false, troops := 5, targetTile := some 3,
                sourceTile := some 0, active := true }]
    nextUnitId := 2 }

/-- The transport execution landing on `sampleEnemyState`'s tile 3. -/
def sampleDropExec : TransportPlaneExecution :=
  { attacker := 0, dstTile := 3, troops := 5, dst := 3, plane := 1 }

end OpenWar

/-- Witness for C5: the plane of `sampleEnemyState` lands on enemy tile 3;
an attack execution carrying the 5 landed troops is enqueued, the tile is
conquered, and the attacker's pool is not credited. -/
theorem transportLand_on_land_witness :
    (OpenWar.TransportPlaneExecution.landTroops OpenWar.sampleDropExec
      OpenWar.sampleEnemyState).2.pendingExecs =
      OpenWar.sampleEnemyState.pendingExecs ++
        [OpenWar.PendingExec.attack (OpenWar.sampleEnemyState.unitTroops 1) 0 1 3 false] ∧
    (OpenWar.TransportPlaneExecution.landTroops OpenWar.sampleDropExec
      OpenWar.sampleEnemyState).2.ownerOf 3 = some 0 ∧
    (OpenWar.TransportPlaneExecution.landTroops OpenWar.sampleDropExec
      OpenWar.sampleEnemyState).2.players = OpenWar.sampleEnemyState.players :=
  (transportLand_on_land OpenWar.sampleDropExec OpenWar.sampleEnemyState (by rfl)).1
    1 (by rfl) (by rfl)

namespace OpenWar

lemma closestAirportAux_all_construction (m : GameMap) (dst : TileRef) :
    ∀ (l : List Unit), (∀ a ∈ l, a.underConstruction = true) →
    closestAirportAux m dst l none = none
  | [], _ => rfl
  | a :: rest, h => by
    have ha := h a (by simp)
    simp only [closestAirportAux, ha, if_true]
    exact closestAirportAux_all_construction m dst rest (fun b hb => h b (by simp [hb]))

lemma closestAirportAux_spec (m : GameMap) (dst : TileRef) :
    ∀ (l : List Unit) (best : Option (Unit × Int)),
    (∀ p, best = some p → p.2 = distSq m dst p.1.tile) →
    (match closestAirportAux m dst l best with
     | none => best = none ∧ ∀ a ∈ l, a.underConstruction = true
     | some r => r.2 = distSq m dst r.1.tile ∧
         ((r.1 ∈ l ∧ r.1.underConstruction = false) ∨ best = some r) ∧
         (∀ b ∈ l, b.underConstruction = false → r.2 ≤ distSq m dst b.tile) ∧
         (∀ p, best = some p → r.2 ≤ p.2))
  | [], best, hbest => by
    cases best with
    | none => simp [closestAirportAux]
    | some p =>
      simp [closestAirportAux]
      exact hbest p rfl
  | a :: rest, best, hbest => by
    by_cases hc : a.underConstruction = true
    · have hrec := closestAirportAux_spec m dst rest best hbest
      simp only [closestAirportAux, hc, if_true]
      cases hr : closestAirportAux m dst rest best with
      | none =>
        rw [hr] at hrec
        exact ⟨hrec.1, fun b hb => by
          rcases List.mem_cons.mp hb with rfl | hb2
          · exact hc
          · exact hrec.2 b hb2⟩
      | some r =>
        rw [hr] at hrec
        refine ⟨hrec.1, ?_, ?_, hrec.2.2.2⟩
        · rcases hrec.2.1 with ⟨hm, hav⟩ | hb
          · exact Or.inl ⟨List.mem_cons_of_mem a hm, hav⟩
          · exact Or.inr hb
        · intro b hb hbav
          rcases List.mem_cons.mp hb with rfl | hb2
          · exact absurd hc (by simp [hbav])
          · exact hrec.2.2.1 b hb2 hbav
    · replace hc : a.underConstruction = false := by
        cases h2 : a.underConstruction
        · rfl
        · exact absurd h2 hc
      cases best with
      | none =>
        have hrec := closestAirportAux_spec m dst rest
          (some (a, distSq m dst a.tile))
          (by intro p hp; cases hp; rfl)
        simp only [closestAirportAux, hc, if_false, Bool.false_eq_true]
        cases hr : closestAirportAux m dst rest (some (a, distSq m dst a.tile)) with
        | none =>
          rw [hr] at hrec
          exact absurd hrec.1 (by simp)
        | some r =>
          rw [hr] at hrec
          refine ⟨hrec.1, ?_, ?_, by intro p hp; cases hp⟩
          · rcases hrec.2.1 with ⟨hm, hav⟩ | hb
            · exact Or.inl ⟨List.mem_cons_of_mem a hm, hav⟩
            · cases hb
              exact Or.inl ⟨List.mem_cons_self a rest, hc⟩
          · intro b hb hbav
            rcases List.mem_cons.mp hb with rfl | hb2
            · exact hrec.2.2.2 (b, distSq m dst b.tile) rfl
            · exact hrec.2.2.1 b hb2 hbav
      | some p =>
        obtain ⟨b0, bd0⟩ := p
        have hbd0 : bd0 = distSq m dst b0.tile := hbest (b0, bd0) rfl
        by_cases hlt : distSq m dst a.tile < bd0
        · have hrec := closestAirportAux_spec m dst rest
            (some (a, distSq m dst a.tile))
            (by intro p hp; cases hp; rfl)
          simp only [closestAirportAux, hc, if_false, Bool.false_eq_true, hlt, if_true]
          cases hr : closestAirportAux m dst rest (some (a, distSq m dst a.tile)) with
          | none =>
            rw [hr] at hrec
            exact absurd hrec.1 (by simp)
          | some r =>
            rw [hr] at hrec
            refine ⟨hrec.1, ?_, ?_, ?_⟩
            · rcases hrec.2.1 with ⟨hm, hav⟩ | hb
              · exact Or.inl ⟨List.mem_cons_of_mem a hm, hav⟩
              · cases hb
                exact Or.inl ⟨List.mem_cons_self a rest, hc⟩
            · intro b hb hbav
              rcases List.mem_cons.mp hb with rfl | hb2
              · exact hrec.2.2.2 (b, distSq m dst b.tile) rfl
              · exact hrec.2.2.1 b hb2 hbav
            · intro p hp
              cases hp
              have := hrec.2.2.2 (a, distSq m dst a.tile) rfl
              exact le_trans this (le_of_lt hlt)
        · have hrec := closestAirportAux_spec m dst rest (some (b0, bd0)) hbest
          simp only [closestAirportAux, hc, if_false, Bool.false_eq_true, hlt]
          cases hr : closestAirportAux m dst rest (some (b0, bd0)) with
          | none =>
            rw [hr] at hrec
            exact absurd hrec.1 (by simp)
          | some r =>
            rw [hr] at hrec
            refine ⟨hrec.1, ?_, ?_, hrec.2.2.2⟩
            · rcases hrec.2.1 with ⟨hm, hav⟩ | hb
              · exact Or.inl ⟨List.mem_cons_of_mem a hm, hav⟩
              · exact Or.inr hb
            · intro b hb hbav
              rcases List.mem_cons.mp hb with rfl | hb2
              · have h1 := hrec.2.2.2 (b0, bd0) rfl
                have h2 : bd0 ≤ distSq m dst b.tile := le_of_not_lt hlt
                exact le_trans h1 h2
              · exact hrec.2.2.1 b hb2 hbav

/-- Consequence for `findClosestAirport`: when some airport in the list is
not under construction, the scan returns an available airport of the list
whose squared distance to the destination is minimal among the available
airports. -/
lemma findClosestAirport_min (m : GameMap) (dst : TileRef) (l : List Unit)
    (hex : ∃ a ∈ l, a.underConstruction = false) :
    ∃ a, findClosestAirport m dst l = some a ∧ a ∈ l ∧
      a.underConstruction = false ∧
      ∀ b ∈ l, b.underConstruction = false →
        distSq m dst a.tile ≤ distSq m dst b.tile := by
  have hspec := closestAirportAux_spec m dst l none (by intro p hp; cases hp)
  cases hr : closestAirportAux m dst l none with
  | none =>
    rw [hr] at hspec
    obtain ⟨a, ha, hav⟩ := hex
    exact absurd (hspec.2 a ha) (by simp [hav])
  | some r =>
    rw [hr] at hspec
    obtain ⟨hd, hmem, hmin, _⟩ := hspec
    rcases hmem with ⟨hm, hav⟩ | hb
    · refine ⟨r.1, ?_, hm, hav, ?_⟩
      · simp [findClosestAirport, hr]
      · intro b hb2 hbav
        rw [← hd]
        exact hmin b hb2 hbav
    · cases hb

end OpenWar

/-- C9: a transport/airdrop initialization (a) with a valid destination, an
attackable target and at least one airport not under construction selects
as source the tile of an available airport minimizing the straight-line
distance to the destination; (b) with no airport at all deactivates and
emits the no-airport message; (c) with every owned airport under
construction deactivates. -/
theorem transportInit_picks_closest_airport
    (e : OpenWar.TransportPlaneExecution) (mg : OpenWar.GameState) (ticks : Nat) :
    ((mg.isValidRef e.dstTile = true) →
     (∀ q, mg.owner e.dstTile = some q →
        mg.isOnSameTeam e.attacker q = false ∧ mg.canAttackPlayer e.attacker q = true) →
     (∃ a ∈ mg.playerUnits e.attacker OpenWar.UnitType.Airport,
        a.underConstruction = false) →
     (∃ a ∈ mg.playerUnits e.attacker OpenWar.UnitType.Airport,
        a.underConstruction = false ∧
        (OpenWar.TransportPlaneExecution.init e mg ticks).1.src = a.tile ∧
        ∀ b ∈ mg.playerUnits e.attacker OpenWar.UnitType.Airport,
          b.underConstruction = false →
          OpenWar.distSq mg.map e.dstTile a.tile ≤
            OpenWar.distSq mg.map e.dstTile b.tile)) ∧
    ((mg.isValidRef e.dstTile = true) →
     mg.playerUnits e.attacker OpenWar.UnitType.Airport = [] →
     ((OpenWar.TransportPlaneExecution.init e mg ticks).1.active = false ∧
      (OpenWar.TransportPlaneExecution.init e mg ticks).2.messages =
        mg.messages ++ [OpenWar.DisplayEvent.message "events_display.no_airport"
          OpenWar.MessageType.ATTACK_FAILED e.attacker])) ∧
    ((∀ a ∈ mg.playerUnits e.attacker OpenWar.UnitType.Airport,
        a.underConstruction = true) →
     (OpenWar.TransportPlaneExecution.init e mg ticks).1.active = false) := by
  refine ⟨?_, ?_, ?_⟩
  · intro hvalid htarget hex
    obtain ⟨ca, hfca, hmem, hav, hmin⟩ :=
      OpenWar.findClosestAirport_min mg.map e.dstTile
        (mg.playerUnits e.attacker OpenWar.UnitType.Airport) hex
    refine ⟨ca, hmem, hav, ?_, hmin⟩
    have hne : mg.playerUnits e.attacker OpenWar.UnitType.Airport ≠ [] := by
      rintro h
      rw [h] at hex
      simp at hex
    have hlen0 : ¬(mg.playerUnits e.attacker OpenWar.UnitType.Airport).length = 0 := by
      simpa [List.length_eq_zero] using hne
    have htb : (match mg.owner e.dstTile with
        | some q => mg.isOnSameTeam e.attacker q || !(mg.canAttackPlayer e.attacker q)
        | none => false) = false := by
      cases howner : mg.owner e.dstTile with
      | none => rfl
      | some q =>
        have h1 := (htarget q howner).1
        have h2 := (htarget q howner).2
        simp [h1, h2]
    unfold OpenWar.TransportPlaneExecution.init
    dsimp only
    simp only [hvalid, Bool.not_true, Bool.false_eq_true, if_false, hlen0, htb, hfca]
    split <;> rfl
  · intro hvalid hempt
    unfold OpenWar.TransportPlaneExecution.init
    dsimp only
    simp [hvalid, hempt, OpenWar.GameState.displayMessage]
  · intro hall
    unfold OpenWar.TransportPlaneExecution.init
    dsimp only
    cases hvalid : mg.isValidRef e.dstTile with
    | false => simp
    | true =>
      simp only [Bool.not_true, Bool.false_eq_true, if_false]
      by_cases hlen : (mg.playerUnits e.attacker OpenWar.UnitType.Airport).length = 0
      · simp [hlen]
      · simp only [hlen, if_false]
        have hfnone : OpenWar.findClosestAirport mg.map e.dstTile
            (mg.playerUnits e.attacker OpenWar.UnitType.Airport) = none := by
          unfold OpenWar.findClosestAirport
          rw [OpenWar.closestAirportAux_all_construction mg.map e.dstTile _ hall]
          rfl
        split
        · rfl
        · rw [hfnone]

namespace OpenWar

/-- A 4×1 state with two completed airports for player 0, at tiles 0 and 2
(tile 2 is nearer to destination tile 3). -/
def sampleTwoAirportState : GameState :=
  { sampleState with
    map := { width := 4, height := 1, isLandAt := fun _ => true }
    units := [{ id := 1, unitType := UnitType.Airport, owner := 0, tile := 0,
                underConstruction := false, troops := 0, targetTile := none,
                sourceTile := none, active := true },
              { id := 2, unitType := UnitType.Airport, owner := 0, tile := 2,
                underConstruction := false, troops := 0, targetTile := none,
                sourceTile := none, active := true }]
    nextUnitId := 3 }

/-- The sample state whose only airport is under construction. -/
def sampleUCState : GameState :=
  { sampleState with
    units := [{ sampleAirportUnit with underConstruction := true }]
    nextUnitId := 2 }

end OpenWar

/-- Witness for C9: (a) with airports at tiles 0 and 2 and destination 3,
init picks an available minimizing airport; (b) with no airport the
execution deactivates and emits the no-airport message; (c) with only an
under-construction airport it deactivates. -/
theorem transportInit_picks_closest_airport_witness :
    (∃ a ∈ OpenWar.sampleTwoAirportState.playerUnits 0 OpenWar.UnitType.Airport,
      a.underConstruction = false ∧
      (OpenWar.TransportPlaneExecution.init { attacker := 0, dstTile := 3, troops := 10 }
        OpenWar.sampleTwoAirportState 0).1.src = a.tile ∧
      ∀ b ∈ OpenWar.sampleTwoAirportState.playerUnits 0 OpenWar.UnitType.Airport,
        b.underConstruction = false →
        OpenWar.distSq OpenWar.sampleTwoAirportState.map 3 a.tile ≤
          OpenWar.distSq OpenWar.sampleTwoAirportState.map 3 b.tile) ∧
    ((OpenWar.TransportPlaneExecution.init { attacker := 0, dstTile := 3, troops := 10 }
        OpenWar.sampleState 0).1.active = false ∧
     (OpenWar.TransportPlaneExecution.init { attacker := 0, dstTile := 3, troops := 10 }
        OpenWar.sampleState 0).2.messages =
       OpenWar.sampleState.messages ++
         [OpenWar.DisplayEvent.message "events_display.no_airport"
           OpenWar.MessageType.ATTACK_FAILED 0]) ∧
    ((OpenWar.TransportPlaneExecution.init { attacker := 0, dstTile := 3, troops := 10 }
        OpenWar.sampleUCState 0).1.active = false) :=
  ⟨(transportInit_picks_closest_airport { attacker := 0, dstTile := 3, troops := 10 }
      OpenWar.sampleTwoAirportState 0).1 rfl (fun q h => nomatch h) (by decide),
   (transportInit_picks_closest_airport { attacker := 0, dstTile := 3, troops := 10 }
      OpenWar.sampleState 0).2.1 rfl rfl,
   (transportInit_picks_closest_airport { attacker := 0, dstTile := 3, troops := 10 }
      OpenWar.sampleUCState 0).2.2 (by decide)⟩

/-- C6: a research execution for Infantry Improvements (cost 500,000 gold,
duration 300 ticks) started at tick S is not completed when tick S+299 is
processed, and completes when tick S+300 is processed, after which
`hasResearch` is true and the combined attack-bonus multiplier reflects
the completed research's (empty) bonus — the neutral 1.0. -/
theorem researchExecution_timing
    (mg : OpenWar.GameState) (p : PlayerId) (S : Nat)
    (hcs : mg.canStartResearch p Research2.ResearchType.InfantryImprovements = true)
    (halive : (mg.players p).alive = true)
    (hfresh : ∀ t, (mg.players p).researches t = none) :
    (Research2.getResearchDefinition
      Research2.ResearchType.InfantryImprovements).cost = 500000 ∧
    (Research2.getResearchDefinition
      Research2.ResearchType.InfantryImprovements).durationTicks = 300 ∧
    (OpenWar.ResearchExecution.init
      { player := p, researchType := Research2.ResearchType.InfantryImprovements }
      mg S).1.completionTick = some (S + 300) ∧
    (OpenWar.ResearchExecution.tick
      (OpenWar.ResearchExecution.init
        { player := p, researchType := Research2.ResearchType.InfantryImprovements }
        mg S).1
      (OpenWar.ResearchExecution.init
        { player := p, researchType := Research2.ResearchType.InfantryImprovements }
        mg S).2 (S + 299)).2.hasResearch p
        Research2.ResearchType.InfantryImprovements = false ∧
    (OpenWar.ResearchExecution.tick
      (OpenWar.ResearchExecution.init
        { player := p, researchType := Research2.ResearchType.InfantryImprovements }
        mg S).1
      (OpenWar.ResearchExecution.init
        { player := p, researchType := Research2.ResearchType.InfantryImprovements }
        mg S).2 (S + 299)).2 =
      (OpenWar.ResearchExecution.init
        { player := p, researchType := Research2.ResearchType.InfantryImprovements }
        mg S).2 ∧
    (OpenWar.ResearchExecution.tick
      (OpenWar.ResearchExecution.init
        { player := p, researchType := Research2.ResearchType.InfantryImprovements }
        mg S).1
      (OpenWar.ResearchExecution.init
        { player := p, researchType := Research2.ResearchType.InfantryImprovements }
        mg S).2 (S + 300)).2.hasResearch p
        Research2.ResearchType.InfantryImprovements = true ∧
    (OpenWar.ResearchExecution.tick
      (OpenWar.ResearchExecution.init
        { player := p, researchType := Research2.ResearchType.InfantryImprovements }
        mg S).1
      (OpenWar.ResearchExecution.init
        { player := p, researchType := Research2.ResearchType.InfantryImprovements }
        mg S).2 (S + 300)).1.active = false ∧
    (OpenWar.ResearchExecution.tick
      (OpenWar.ResearchExecution.init
        { player := p, researchType := Research2.ResearchType.InfantryImprovements }
        mg S).1
      (OpenWar.ResearchExecution.init
        { player := p, researchType := Research2.ResearchType.InfantryImprovements }
        mg S).2 (S + 300)).2.completedResearchTypes p =
      [Research2.ResearchType.InfantryImprovements] ∧
    (Research2.calculateCombinedBonuses
      ((OpenWar.ResearchExecution.tick
        (OpenWar.ResearchExecution.init
          { player := p, researchType := Research2.ResearchType.InfantryImprovements }
          mg S).1
        (OpenWar.ResearchExecution.init
          { player := p, researchType := Research2.ResearchType.InfantryImprovements }
          mg S).2 (S + 300)).2.completedResearchTypes p)).attackBonus = some 1 := by
  have hsr : mg.startResearch p Research2.ResearchType.InfantryImprovements =
      (true, mg.updatePlayer p (fun pl =>
        { pl with
          gold := pl.gold -
            (Research2.getResearchDefinition
              Research2.ResearchType.InfantryImprovements).cost
          currentResearch := some Research2.ResearchType.InfantryImprovements
          researches := fun t2 =>
            if t2 = Research2.ResearchType.InfantryImprovements then
              some { type := Research2.ResearchType.InfantryImprovements,
                     completed := false, startedAt := some mg.curTick,
                     completedAt := none }
            else pl.researches t2 })) := by
    unfold OpenWar.GameState.startResearch
    rw [if_pos hcs]
  have hinit : OpenWar.ResearchExecution.init
      { player := p, researchType := Research2.ResearchType.InfantryImprovements } mg S =
      ({ player := p, researchType := Research2.ResearchType.InfantryImprovements,
         active := true, completionTick := some (S + 300) },
       (mg.startResearch p Research2.ResearchType.InfantryImprovements).2) := by
    unfold OpenWar.ResearchExecution.init
    dsimp only
    simp [hcs, hsr]
    rfl
  rw [hinit]
  have halive1 : ((mg.startResearch p
      Research2.ResearchType.InfantryImprovements).2.players p).alive = true := by
    rw [hsr]
    simp [OpenWar.GameState.updatePlayer, halive]
  have hres1 : ∀ t2, ((mg.startResearch p
      Research2.ResearchType.InfantryImprovements).2.players p).researches t2 =
      if t2 = Research2.ResearchType.InfantryImprovements then
        some { type := Research2.ResearchType.InfantryImprovements,
               completed := false, startedAt := some mg.curTick, completedAt := none }
      else none := by
    intro t2
    rw [hsr]
    simp [OpenWar.GameState.updatePlayer]
    split
    · rfl
    · exact hfresh t2
  have hcur1 : ((mg.startResearch p
      Research2.ResearchType.InfantryImprovements).2.players p).currentResearch =
      some Research2.ResearchType.InfantryImprovements := by
    rw [hsr]
    simp [OpenWar.GameState.updatePlayer]
  have htick299 : OpenWar.ResearchExecution.tick
      { player := p, researchType := Research2.ResearchType.InfantryImprovements,
        active := true, completionTick := some (S + 300) }
      (mg.startResearch p Research2.ResearchType.InfantryImprovements).2 (S + 299) =
      ({ player := p, researchType := Research2.ResearchType.InfantryImprovements,
         active := true, completionTick := some (S + 300) },
       (mg.startResearch p Research2.ResearchType.InfantryImprovements).2) := by
    unfold OpenWar.ResearchExecution.tick
    have hn : ¬(S + 300 ≤ S + 299) := by omega
    simp [OpenWar.GameState.isAlive, halive1, hn]
  have htick300 : OpenWar.ResearchExecution.tick
      { player := p, researchType := Research2.ResearchType.InfantryImprovements,
        active := true, completionTick := some (S + 300) }
      (mg.startResearch p Research2.ResearchType.InfantryImprovements).2 (S + 300) =
      ({ player := p, researchType := Research2.ResearchType.InfantryImprovements,
         active := false, completionTick := some (S + 300) },
       (mg.startResearch p
         Research2.ResearchType.InfantryImprovements).2.completeResearch p) := by
    unfold OpenWar.ResearchExecution.tick
    simp [OpenWar.GameState.isAlive, halive1]
  rw [htick299, htick300]
  have hres2 : ∀ t2, (((mg.startResearch p
      Research2.ResearchType.InfantryImprovements).2.completeResearch p).players
        p).researches t2 =
      if t2 = Research2.ResearchType.InfantryImprovements then
        some { type := Research2.ResearchType.InfantryImprovements, completed := true,
               startedAt := some mg.curTick,
               completedAt := some (mg.startResearch p
                 Research2.ResearchType.InfantryImprovements).2.curTick }
      else none := by
    intro t2
    unfold OpenWar.GameState.completeResearch
    rw [hcur1]
    simp [OpenWar.GameState.updatePlayer]
    split
    · simp [hres1]
    · rename_i hne
      rw [hres1 t2, if_neg hne]
  have hhas2 : ((mg.startResearch p
      Research2.ResearchType.InfantryImprovements).2.completeResearch p).hasResearch p
      Research2.ResearchType.InfantryImprovements = true := by
    simp [OpenWar.GameState.hasResearch, hres2]
  have hcrt : ((mg.startResearch p
      Research2.ResearchType.InfantryImprovements).2.completeResearch
        p).completedResearchTypes p =
      [Research2.ResearchType.InfantryImprovements] := by
    simp [OpenWar.GameState.completedResearchTypes, Research2.ResearchType.values,
      OpenWar.GameState.hasResearch, hres2]
  refine ⟨rfl, rfl, rfl, ?_, rfl, hhas2, rfl, hcrt, ?_⟩
  · simp [OpenWar.GameState.hasResearch, hres1]
  · rw [hcrt]
    rfl

/-- Witness for C6: player 0 of the sample state (1,000,000 gold, no
research yet) starts Infantry Improvements at tick 10; at tick 309 it is
not completed, at tick 310 `hasResearch` holds. -/
theorem researchExecution_timing_witness :
    (OpenWar.ResearchExecution.tick
      (OpenWar.ResearchExecution.init
        { player := 0, researchType := Research2.ResearchType.InfantryImprovements }
        OpenWar.sampleState 10).1
      (OpenWar.ResearchExecution.init
        { player := 0, researchType := Research2.ResearchType.InfantryImprovements }
        OpenWar.sampleState 10).2 (10 + 299)).2.hasResearch 0
        Research2.ResearchType.InfantryImprovements = false ∧
    (OpenWar.ResearchExecution.tick
      (OpenWar.ResearchExecution.init
        { player := 0, researchType := Research2.ResearchType.InfantryImprovements }
        OpenWar.sampleState 10).1
      (OpenWar.ResearchExecution.init
        { player := 0, researchType := Research2.ResearchType.InfantryImprovements }
        OpenWar.sampleState 10).2 (10 + 300)).2.hasResearch 0
        Research2.ResearchType.InfantryImprovements = true :=
  ⟨(researchExecution_timing OpenWar.sampleState 0 10 rfl rfl (fun _ => rfl)).2.2.2.1,
   (researchExecution_timing OpenWar.sampleState 0 10 rfl rfl
      (fun _ => rfl)).2.2.2.2.2.1⟩
